import Mathlib

/-!
Shallow embedding of the four Domo-embed handler variants of this
repository:

* `Pages`    — `src/pages/api/embed-domo-app.js` (merged-environment variant)
* `Functions`— `functions/embed-domo-app.js` (default-export `handler`)
* `Part000`  — the unnamed variant using the stories embed endpoint
* `Part001`  — the unnamed variant returning a bare iframe

Each handler is modelled as a pure function from its environment
sources and a stubbed upstream (the answers the two Domo endpoints
would give) to the HTTP response it produces together with the list of
outbound fetches it performs, in order.
-/

namespace DomoEmbed

/-- The JS `Response.ok` test: HTTP status in the 2xx range. -/
def statusOk (s : Nat) : Bool := 200 ≤ s && s < 300

/-- An HTTP response produced by a handler: status, body (none = null),
and headers in the order the source object literal lists them. -/
structure HttpResult where
  status : Nat
  body : Option String
  headers : List (String × String)
deriving DecidableEq

/-- One entry of the `authorizations` array of an embed-authorization
request payload. -/
structure Authorization where
  token : String
  permissions : List String
deriving DecidableEq

/-- JSON payload of an embed-authorization request. -/
structure EmbedPayload where
  sessionLength : Nat
  authorizations : List Authorization
deriving DecidableEq

/-- An outbound `fetch` performed by a handler: URL, HTTP method, the
`Authorization` header value, an optional form-encoded body and an
optional JSON payload (for the embed-authorization call). -/
structure OutboundRequest where
  url : String
  method : String
  authorization : String
  formBody : Option String
  jsonPayload : Option EmbedPayload
deriving DecidableEq

/-- Stubbed answer of the OAuth token endpoint: HTTP status, the
`access_token` field of the JSON body ("" models a missing field) and
the raw body text (what `.text()` would return on an error). -/
structure TokenUpstream where
  status : Nat
  access_token : String
  errorText : String
deriving DecidableEq

/-- Stubbed answer of the embed-authorization endpoint: HTTP status,
the `authentication` field of the JSON body ("" models a missing
field) and the raw body text. -/
structure EmbedUpstream where
  status : Nat
  authentication : String
  errorText : String
deriving DecidableEq

/-- The two stubbed upstream answers available to one run. -/
structure Upstream where
  token : TokenUpstream
  embed : EmbedUpstream
deriving DecidableEq

/-- The `corsHeaders` object shared by every variant. -/
def corsHeaders : List (String × String) :=
  [("Access-Control-Allow-Origin", "*"),
   ("Access-Control-Allow-Methods", "GET, POST, OPTIONS"),
   ("Access-Control-Allow-Headers", "Content-Type, Authorization")]

/-- The environment keys any of the handlers destructures; `none`
models an absent key. -/
structure Env where
  DOMO_CLIENT_ID : Option String
  DOMO_CLIENT_SECRET : Option String
  DOMO_BASE_URL : Option String
  DOMO_EMBED_ID : Option String
  DOMO_APP_ID : Option String
  DOMO_EMBED_TYPE : Option String
deriving DecidableEq

/-- JS falsiness of a possibly-absent string: `undefined` or `""`. -/
def isFalsy : Option String → Bool
  | none => true
  | some s => s.isEmpty

/-- Per-key effect of the object spread `\x7b...processEnv, ...runtimeEnv\x7d`:
the runtime value wins whenever the key is present there. -/
def mergeField : Option String → Option String → Option String
  | some v, _ => some v
  | none, p => p

/-- The merged environment `\x7b...processEnv, ...runtimeEnv\x7d` of the
merged-environment variants (runtime takes precedence). -/
def mergeEnv (processEnv runtimeEnv : Env) : Env where
  DOMO_CLIENT_ID := mergeField runtimeEnv.DOMO_CLIENT_ID processEnv.DOMO_CLIENT_ID
  DOMO_CLIENT_SECRET := mergeField runtimeEnv.DOMO_CLIENT_SECRET processEnv.DOMO_CLIENT_SECRET
  DOMO_BASE_URL := mergeField runtimeEnv.DOMO_BASE_URL processEnv.DOMO_BASE_URL
  DOMO_EMBED_ID := mergeField runtimeEnv.DOMO_EMBED_ID processEnv.DOMO_EMBED_ID
  DOMO_APP_ID := mergeField runtimeEnv.DOMO_APP_ID processEnv.DOMO_APP_ID
  DOMO_EMBED_TYPE := mergeField runtimeEnv.DOMO_EMBED_TYPE processEnv.DOMO_EMBED_TYPE

/-- Replace the `DOMO_CLIENT_SECRET` entry of an environment. -/
def Env.withSecret (e : Env) (s : Option String) : Env :=
  { e with DOMO_CLIENT_SECRET := s }

/-- Replace the `DOMO_CLIENT_ID` entry of an environment. -/
def Env.withClientId (e : Env) (s : Option String) : Env :=
  { e with DOMO_CLIENT_ID := s }

/-- Replace the `DOMO_EMBED_TYPE` entry of an environment. -/
def Env.withEmbedType (e : Env) (s : Option String) : Env :=
  { e with DOMO_EMBED_TYPE := s }

/-- Replace the `access_token` the token endpoint answers with. -/
def Upstream.withAccessToken (u : Upstream) (t : String) : Upstream :=
  { u with token := { u.token with access_token := t } }

/-- Replace the `authentication` the embed endpoint answers with. -/
def Upstream.withAuthentication (u : Upstream) (a : String) : Upstream :=
  { u with embed := { u.embed with authentication := a } }

/-- The validation guard of the variants keyed on `DOMO_EMBED_ID`:
`!DOMO_CLIENT_ID || !DOMO_CLIENT_SECRET || !DOMO_BASE_URL || !DOMO_EMBED_ID`. -/
def missingEmbedConfig (env : Env) : Bool :=
  isFalsy env.DOMO_CLIENT_ID || isFalsy env.DOMO_CLIENT_SECRET ||
    isFalsy env.DOMO_BASE_URL || isFalsy env.DOMO_EMBED_ID

/-- The validation guard of the variants keyed on `DOMO_APP_ID`:
`!DOMO_CLIENT_ID || !DOMO_CLIENT_SECRET || !DOMO_BASE_URL || !DOMO_APP_ID`. -/
def missingAppConfig (env : Env) : Bool :=
  isFalsy env.DOMO_CLIENT_ID || isFalsy env.DOMO_CLIENT_SECRET ||
    isFalsy env.DOMO_BASE_URL || isFalsy env.DOMO_APP_ID

/-- The base64 alphabet character of index `n`. -/
def b64Char (n : Nat) : Char :=
  "ABCDEFGHIJKLMNOPQRSTUVWXYZabcdefghijklmnopqrstuvwxyz0123456789+/".toList.getD n 'A'

/-- base64 of a byte list, with `=` padding. -/
def base64EncodeBytes : List Nat → List Char
  | [] => []
  | [a] => [b64Char (a / 4), b64Char (a % 4 * 16), '=', '=']
  | [a, b] => [b64Char (a / 4), b64Char (a % 4 * 16 + b / 16), b64Char (b % 16 * 4), '=']
  | a :: b :: c :: rest =>
    [b64Char (a / 4), b64Char (a % 4 * 16 + b / 16),
     b64Char (b % 16 * 4 + c / 64), b64Char (c % 64)] ++ base64EncodeBytes rest

/-- The JS `btoa` / `Buffer.toString('base64')`: base64 of the string's bytes. -/
def btoa (s : String) : String :=
  String.mk (base64EncodeBytes (s.toUTF8.toList.map (fun b => b.toNat)))

/-- One hex digit, lower case. -/
def hexDigit (n : Nat) : Char := "0123456789abcdef".toList.getD n '0'

/-- The escaping `JSON.stringify` applies to a character inside a JSON
string value. -/
def jsonEscapeChar (c : Char) : List Char :=
  if c = '\\' then ['\\', '\\']
  else if c = '\"' then ['\\', '\"']
  else if c = '\n' then ['\\', 'n']
  else if c = '\r' then ['\\', 'r']
  else if c = '\t' then ['\\', 't']
  else if c = Char.ofNat 8 then ['\\', 'b']
  else if c = Char.ofNat 12 then ['\\', 'f']
  else if c.toNat < 32 then
    ['\\', 'u', '0', '0', hexDigit (c.toNat / 16), hexDigit (c.toNat % 16)]
  else [c]

/-- The escaping `JSON.stringify` applies inside a JSON string value. -/
def jsonEscape (s : String) : String :=
  String.mk (List.flatten (s.toList.map jsonEscapeChar))

/-- A JSON string literal as `JSON.stringify` renders it. -/
def jsonStr (s : String) : String := "\"" ++ jsonEscape s ++ "\""

/-- The pattern `pat` occurs contiguously inside `s`. -/
def strContains (s pat : String) : Prop := pat.data <:+: s.data

instance (s pat : String) : Decidable (strContains s pat) :=
  inferInstanceAs (Decidable (pat.data <:+: s.data))

/-- Body of the configuration-error response, `JSON.stringify` of the
object literal shared verbatim by all four variants. -/
def configErrorBody : String :=
  "\x7b\"error\":\"Server configuration error\",\"details\":\"Missing required Domo credentials\"\x7d"

/-- Template `iframeHtml` of the Pages variant, up to the interpolated
`embedToken` (the `tokenValue` constant). -/
def PagesIframeHtmlPre : String :=
  "\n    <script>\n      console.log(\x27🚀 MULTI-STRATEGY EMBED TOKEN PASSING ACTIVATED\x27);\n      console.log(\x27📍 Strategy 1: URL parameters (embedTokenValue, embedToken, token, auth)\x27);\n      console.log(\x27📍 Strategy 2: Hash fragments (embedTokenValue, embedToken, token)\x27);\n      console.log(\x27📍 Strategy 3: Cookies (domoEmbedToken, embedToken, token)\x27);\n      console.log(\x27📍 Strategy 4: localStorage/sessionStorage\x27);\n      console.log(\x27📍 Strategy 5: PostMessage to iframe\x27);\n\n      // Set multiple cookies as backup\n      const tokenValue = \x27"

/-- Template `iframeHtml` of the Pages variant, between the interpolated
`embedToken` and the interpolated `embedUrl` of the iframe `src`. -/
def PagesIframeHtmlMid : String :=
  "\x27;\n      document.cookie = \x27domoEmbedToken=\x27 + tokenValue + \x27; path=/; max-age=86400; SameSite=None; Secure\x27;\n      document.cookie = \x27embedToken=\x27 + tokenValue + \x27; path=/; max-age=86400; SameSite=None; Secure\x27;\n      document.cookie = \x27token=\x27 + tokenValue + \x27; path=/; max-age=86400; SameSite=None; Secure\x27;\n      document.cookie = \x27domo_embed_auth=\x27 + tokenValue + \x27; path=/; max-age=86400; SameSite=None; Secure\x27;\n\n      // Set localStorage/sessionStorage as backup\n      try \x7b\n        localStorage.setItem(\x27domoEmbedToken\x27, tokenValue);\n        localStorage.setItem(\x27embedToken\x27, tokenValue);\n        localStorage.setItem(\x27token\x27, tokenValue);\n        sessionStorage.setItem(\x27domoEmbedToken\x27, tokenValue);\n        sessionStorage.setItem(\x27embedToken\x27, tokenValue);\n        sessionStorage.setItem(\x27token\x27, tokenValue);\n      \x7d catch(e) \x7b\n        console.log(\x27Storage not available:\x27, e.message);\n      \x7d\n\n      // PostMessage to iframe after it loads\n      window.addEventListener(\x27load\x27, function() \x7b\n        const iframe = document.querySelector(\x27iframe\x27);\n        if (iframe) \x7b\n          setTimeout(() => \x7b\n            try \x7b\n              iframe.contentWindow.postMessage(\x7b\n                type: \x27EMBED_TOKEN\x27,\n                embedToken: tokenValue,\n                embedTokenValue: tokenValue,\n                token: tokenValue\n              \x7d, \x27*\x27);\n              console.log(\x27📨 PostMessage sent to iframe with embed token\x27);\n            \x7d catch(e) \x7b\n              console.log(\x27PostMessage failed:\x27, e.message);\n            \x7d\n          \x7d, 1000);\n        \x7d\n      \x7d);\n\n      console.log(\x27🔗 Iframe URL with all strategies applied\x27);\n      console.log(\x27Token preview:\x27, tokenValue.substring(0, 20) + \x27...\x27);\n    </script>\n    <iframe src=\""

/-- Template `iframeHtml` of the Pages variant, after the interpolated
`embedUrl`. -/
def PagesIframeHtmlSuf : String :=
  "\" width=\"600\" height=\"600\" marginheight=\"0\" marginwidth=\"0\" frameborder=\"0\" title=\"Domo AI Agentguide\"></iframe>"

/-- Template of `generateEmbedHtml` of the Functions variant, up to the
interpolated `embedUrl` of the iframe `src`. -/
def FunctionsEmbedHtmlPre : String :=
  "\n<!DOCTYPE html>\n<html lang=\"en\">\n<head>\n    <meta charset=\"UTF-8\">\n    <meta name=\"viewport\" content=\"width=device-width, initial-scale=1.0\">\n    <title>AI Use Case Chat</title>\n    <style>\n        body, html \x7b\n            margin: 0;\n            padding: 0;\n            height: 100%;\n            overflow: hidden;\n        \x7d\n\n        .embed-container \x7b\n            position: relative;\n            width: 100%;\n            height: 100vh;\n            min-height: 600px;\n        \x7d\n\n        .embed-iframe \x7b\n            width: 100%;\n            height: 100%;\n            border: none;\n            display: block;\n        \x7d\n\n        .loading-overlay \x7b\n            position: absolute;\n            top: 0;\n            left: 0;\n            width: 100%;\n            height: 100%;\n            background: #f8fafb;\n            display: flex;\n            align-items: center;\n            justify-content: center;\n            flex-direction: column;\n            z-index: 10;\n        \x7d\n\n        .loading-spinner \x7b\n            width: 40px;\n            height: 40px;\n            border: 4px solid #e1e5e9;\n            border-top: 4px solid #1B8CE3;\n            border-radius: 50%;\n            animation: spin 1s linear infinite;\n            margin-bottom: 16px;\n        \x7d\n\n        .loading-text \x7b\n            color: #53565A;\n            font-family: \x27Open Sans\x27, -apple-system, BlinkMacSystemFont, \x27Segoe UI\x27, Roboto, sans-serif;\n            font-size: 14px;\n        \x7d\n\n        @keyframes spin \x7b\n            0% \x7b transform: rotate(0deg); \x7d\n            100% \x7b transform: rotate(360deg); \x7d\n        \x7d\n\n        /* Hide loading overlay after iframe loads */\n        .loaded .loading-overlay \x7b\n            display: none;\n        \x7d\n\n        /* Responsive adjustments */\n        @media (max-width: 768px) \x7b\n            .embed-container \x7b\n                min-height: 500px;\n            \x7d\n        \x7d\n    </style>\n</head>\n<body>\n    <div class=\"embed-container\" id=\"embedContainer\">\n        <div class=\"loading-overlay\" id=\"loadingOverlay\">\n            <div class=\"loading-spinner\"></div>\n            <div class=\"loading-text\">Loading AI Use Case Chat...</div>\n        </div>\n        <iframe\n            id=\"domoEmbed\"\n            class=\"embed-iframe\"\n            src=\""

/-- Template of `generateEmbedHtml` of the Functions variant, after the
interpolated `embedUrl`. -/
def FunctionsEmbedHtmlSuf : String :=
  "\"\n            allow=\"fullscreen\"\n            allowfullscreen\n            onload=\"handleIframeLoad()\"\n            onerror=\"handleIframeError()\"\n        ></iframe>\n    </div>\n\n    <script>\n        // Handle iframe load event\n        function handleIframeLoad() \x7b\n            console.log(\x27Domo app loaded successfully\x27);\n            document.getElementById(\x27embedContainer\x27).classList.add(\x27loaded\x27);\n        \x7d\n\n        // Handle iframe error\n        function handleIframeError() \x7b\n            console.error(\x27Failed to load Domo app\x27);\n            const overlay = document.getElementById(\x27loadingOverlay\x27);\n            overlay.innerHTML = \x60\n                <div style=\"text-align: center; color: #E94B35;\">\n                    <div style=\"font-size: 18px; margin-bottom: 8px;\">⚠️ Unable to load app</div>\n                    <div style=\"font-size: 14px;\">Please refresh the page or try again later.</div>\n                </div>\n            \x60;\n        \x7d\n\n        // Timeout fallback - hide loading after 10 seconds regardless\n        setTimeout(() => \x7b\n            const container = document.getElementById(\x27embedContainer\x27);\n            if (!container.classList.contains(\x27loaded\x27)) \x7b\n                container.classList.add(\x27loaded\x27);\n                console.warn(\x27Loading timeout - hiding overlay\x27);\n            \x7d\n        \x7d, 10000);\n\n        // Send height updates to parent window (if embedded in iframe)\n        function updateParentHeight() \x7b\n            if (window.parent !== window) \x7b\n                const height = Math.max(\n                    document.body.scrollHeight,\n                    document.body.offsetHeight,\n                    document.documentElement.clientHeight,\n                    document.documentElement.scrollHeight,\n                    document.documentElement.offsetHeight\n                );\n                window.parent.postMessage(\x7b\n                    type: \x27resize\x27,\n                    height: height\n                \x7d, \x27*\x27);\n            \x7d\n        \x7d\n\n        // Update height on load and resize\n        window.addEventListener(\x27load\x27, updateParentHeight);\n        window.addEventListener(\x27resize\x27, updateParentHeight);\n    </script>\n</body>\n</html>"

/-- Template of `generateErrorHtml` of the Functions variant, up to the
interpolated `errorMessage`. -/
def FunctionsErrorHtmlPre : String :=
  "\n<!DOCTYPE html>\n<html lang=\"en\">\n<head>\n    <meta charset=\"UTF-8\">\n    <meta name=\"viewport\" content=\"width=device-width, initial-scale=1.0\">\n    <title>AI Use Case Chat - Error</title>\n    <style>\n        body, html \x7b\n            margin: 0;\n            padding: 0;\n            height: 100%;\n            background: #f8fafb;\n            font-family: \x27Open Sans\x27, -apple-system, BlinkMacSystemFont, \x27Segoe UI\x27, Roboto, sans-serif;\n        \x7d\n\n        .error-container \x7b\n            display: flex;\n            align-items: center;\n            justify-content: center;\n            height: 100vh;\n            padding: 20px;\n            text-align: center;\n        \x7d\n\n        .error-content \x7b\n            max-width: 400px;\n            padding: 40px;\n            background: white;\n            border-radius: 8px;\n            box-shadow: 0 4px 6px rgba(0,0,0,0.07);\n        \x7d\n\n        .error-icon \x7b\n            font-size: 48px;\n            margin-bottom: 16px;\n        \x7d\n\n        .error-title \x7b\n            font-size: 20px;\n            font-weight: 600;\n            color: #2A2C2E;\n            margin-bottom: 12px;\n        \x7d\n\n        .error-message \x7b\n            font-size: 14px;\n            color: #53565A;\n            line-height: 1.5;\n            margin-bottom: 24px;\n        \x7d\n\n        .error-actions \x7b\n            display: flex;\n            gap: 12px;\n            justify-content: center;\n        \x7d\n\n        .btn \x7b\n            padding: 10px 20px;\n            border-radius: 6px;\n            text-decoration: none;\n            font-weight: 500;\n            font-size: 14px;\n            cursor: pointer;\n            border: none;\n        \x7d\n\n        .btn-primary \x7b\n            background: #1B8CE3;\n            color: white;\n        \x7d\n\n        .btn-secondary \x7b\n            background: #E4E5E7;\n            color: #53565A;\n        \x7d\n    </style>\n</head>\n<body>\n    <div class=\"error-container\">\n        <div class=\"error-content\">\n            <div class=\"error-icon\">⚠️</div>\n            <div class=\"error-title\">Unable to Load AI Use Case Chat</div>\n            <div class=\"error-message\">\n                We\x27re having trouble loading the application right now. This might be a temporary issue.\n                <br><br>\n                <small>Error: "

/-- Template of `generateErrorHtml` of the Functions variant, after the
interpolated `errorMessage`. -/
def FunctionsErrorHtmlSuf : String :=
  "</small>\n            </div>\n            <div class=\"error-actions\">\n                <button class=\"btn btn-primary\" onclick=\"window.location.reload()\">\n                    Try Again\n                </button>\n                <a class=\"btn btn-secondary\" href=\"mailto:support@company.com\">\n                    Contact Support\n                </a>\n            </div>\n        </div>\n    </div>\n</body>\n</html>"

/-- Template `htmlResponse` of the Part000 variant, up to the
interpolated `embedUrl` of the iframe `src`. -/
def Part000HtmlPre : String :=
  "\n<!DOCTYPE html>\n<html lang=\"en\">\n<head>\n    <meta charset=\"UTF-8\">\n    <meta name=\"viewport\" content=\"width=device-width, initial-scale=1.0\">\n    <title>AI Agentguide - Domo Embed</title>\n    <style>\n        body \x7b\n            margin: 0;\n            padding: 0;\n            font-family: -apple-system, BlinkMacSystemFont, \x27Segoe UI\x27, Roboto, sans-serif;\n            background: #f8f9fa;\n        \x7d\n        .container \x7b\n            max-width: 1200px;\n            margin: 0 auto;\n            padding: 20px;\n        \x7d\n        .embed-container \x7b\n            background: white;\n            border-radius: 12px;\n            box-shadow: 0 4px 6px rgba(0, 0, 0, 0.1);\n            overflow: hidden;\n            min-height: 80vh;\n        \x7d\n        .header \x7b\n            background: linear-gradient(135deg, #667eea 0%, #764ba2 100%);\n            color: white;\n            padding: 20px;\n            text-align: center;\n        \x7d\n        .header h1 \x7b\n            margin: 0;\n            font-size: 24px;\n            font-weight: 600;\n        \x7d\n        .header p \x7b\n            margin: 5px 0 0 0;\n            opacity: 0.9;\n            font-size: 14px;\n        \x7d\n        iframe \x7b\n            width: 100%;\n            height: calc(80vh - 80px);\n            border: none;\n            display: block;\n        \x7d\n        .loading \x7b\n            display: flex;\n            justify-content: center;\n            align-items: center;\n            height: 200px;\n            font-size: 16px;\n            color: #666;\n        \x7d\n        @media (max-width: 768px) \x7b\n            .container \x7b\n                padding: 10px;\n            \x7d\n            iframe \x7b\n                height: calc(90vh - 80px);\n            \x7d\n        \x7d\n    </style>\n</head>\n<body>\n    <div class=\"container\">\n        <div class=\"embed-container\">\n            <div class=\"header\">\n                <h1>ðŸ¤– AI Agentguide</h1>\n                <p>Powered by Domo - Intelligent Business Analytics</p>\n            </div>\n            <div class=\"loading\" id=\"loading\">\n                Loading AI Agentguide...\n            </div>\n            <iframe\n                src=\""

/-- Template `htmlResponse` of the Part000 variant, after the
interpolated `embedUrl`. -/
def Part000HtmlSuf : String :=
  "\"\n                title=\"Domo AI Agentguide\"\n                onload=\"document.getElementById(\x27loading\x27).style.display=\x27none\x27\"\n                onerror=\"document.getElementById(\x27loading\x27).innerHTML=\x27Failed to load. Please refresh the page.\x27\"\n                sandbox=\"allow-same-origin allow-scripts allow-forms allow-popups allow-top-navigation\">\n            </iframe>\n        </div>\n    </div>\n\n    <script>\n        // Auto-refresh token before expiration (4 hours)\n        setTimeout(() => \x7b\n            console.log(\x27Refreshing embed token...\x27);\n            window.location.reload();\n        \x7d, 3.5 * 60 * 60 * 1000); // Refresh after 3.5 hours\n\n        // Handle iframe loading errors\n        window.addEventListener(\x27message\x27, function(event) \x7b\n            if (event.data && event.data.type === \x27domo-embed-error\x27) \x7b\n                console.error(\x27Domo embed error:\x27, event.data.message);\n                document.getElementById(\x27loading\x27).innerHTML = \x27Error loading AI Agentguide. Please contact support.\x27;\n            \x7d\n        \x7d);\n    </script>\n</body>\n</html>"


namespace Pages

/-- The exported OPTIONS handler of the Pages variant: 200, null body,
the three CORS headers; no outbound call occurs. -/
def OPTIONS : HttpResult :=
  ⟨200, none, corsHeaders⟩

/-- Body of the authentication-error response of the Pages variant:
JSON.stringify of the object literal, carrying the upstream status,
the truncated client-id diagnostic, the base URL and the upstream
error text. -/
def authErrorBody (st : Nat) (DOMO_CLIENT_ID DOMO_BASE_URL errorText : String) : String :=
  "\x7b\"error\":\"Authentication failed\",\"details\":" ++
    jsonStr ("Failed to get OAuth token: " ++ toString st) ++
    ",\"clientIdFound\":" ++
    jsonStr (if DOMO_CLIENT_ID.isEmpty then "No"
      else "Yes (" ++ DOMO_CLIENT_ID.take 8 ++ "...)") ++
    ",\"baseUrlFound\":" ++
    jsonStr (if DOMO_BASE_URL.isEmpty then "No" else DOMO_BASE_URL) ++
    ",\"domoResponse\":" ++ jsonStr errorText ++ "\x7d"

/-- Body of the embed-authorization-error response of the Pages
variant. -/
def embedErrorBody (st : Nat) (DOMO_EMBED_ID errorText : String) : String :=
  "\x7b\"error\":\"Embed token generation failed\",\"details\":" ++
    jsonStr ("Failed to generate embed token: " ++ toString st) ++
    ",\"embedIdUsed\":" ++ jsonStr DOMO_EMBED_ID ++
    ",\"embedEndpoint\":" ++ jsonStr ("https://api.domo.com/v1/cards/embed/auth") ++
    ",\"domoEmbedResponse\":" ++ jsonStr errorText ++ "\x7d"

/-- The comma-joined Set-Cookie header value of the Pages success
response. -/
def setCookieHeader (embedToken : String) : String :=
  "domoEmbedToken=" ++ embedToken ++ "; path=/; max-age=86400; SameSite=None; Secure, " ++
    "embedToken=" ++ embedToken ++ "; path=/; max-age=86400; SameSite=None; Secure, " ++
    "token=" ++ embedToken ++ "; path=/; max-age=86400; SameSite=None; Secure"

/-- The multi-strategy embed URL of the Pages success response. -/
def embedUrl (DOMO_EMBED_ID embedToken : String) : String :=
  "https://embed.domo.com/cards/" ++ DOMO_EMBED_ID ++
    "?embedTokenValue=" ++ embedToken ++ "&embedToken=" ++ embedToken ++
    "&token=" ++ embedToken ++ "&auth=" ++ embedToken ++
    "#embedTokenValue=" ++ embedToken ++ "&embedToken=" ++ embedToken ++
    "&token=" ++ embedToken

/-- The iframe HTML of the Pages success response: the template with
its two interpolations (the tokenValue constant and the iframe src)
filled in. -/
def iframeHtml (u embedToken : String) : String :=
  PagesIframeHtmlPre ++ embedToken ++ PagesIframeHtmlMid ++ u ++ PagesIframeHtmlSuf

/-- The handleRequest function of the Pages variant: merged
environment (runtime precedence), GET token exchange against the
hardcoded api.domo.com URL with the grant and scope in the query
string, cards embed endpoint with sessionLength 1440, multi-strategy
success response. -/
def handleRequest (processEnv runtimeEnv : Env) (up : Upstream) :
    HttpResult × List OutboundRequest :=
  let env := mergeEnv processEnv runtimeEnv
  if missingEmbedConfig env then
    (⟨500, some configErrorBody, ("Content-Type", "application/json") :: corsHeaders⟩, [])
  else
    let DOMO_CLIENT_ID := env.DOMO_CLIENT_ID.getD ""
    let DOMO_CLIENT_SECRET := env.DOMO_CLIENT_SECRET.getD ""
    let DOMO_BASE_URL := env.DOMO_BASE_URL.getD ""
    let DOMO_EMBED_ID := env.DOMO_EMBED_ID.getD ""
    let authString := btoa (DOMO_CLIENT_ID ++ ":" ++ DOMO_CLIENT_SECRET)
    let tokenFetch : OutboundRequest :=
      ⟨"https://api.domo.com/oauth/token?grant_type=client_credentials&scope=data%20audit%20user%20dashboard",
        "GET", "Basic " ++ authString, none, none⟩
    if !statusOk up.token.status then
      (⟨401,
        some (authErrorBody up.token.status DOMO_CLIENT_ID DOMO_BASE_URL up.token.errorText),
        ("Content-Type", "application/json") :: corsHeaders⟩, [tokenFetch])
    else
      let embedRequestBody : EmbedPayload :=
        ⟨1440, [⟨DOMO_EMBED_ID, ["READ", "FILTER", "EXPORT"]⟩]⟩
      let embedFetch : OutboundRequest :=
        ⟨"https://api.domo.com/v1/cards/embed/auth", "POST",
          "Bearer " ++ up.token.access_token, none, some embedRequestBody⟩
      if !statusOk up.embed.status then
        (⟨500,
          some (embedErrorBody up.embed.status DOMO_EMBED_ID up.embed.errorText),
          ("Content-Type", "application/json") :: corsHeaders⟩, [tokenFetch, embedFetch])
      else
        let embedToken := up.embed.authentication
        (⟨200, some (iframeHtml (embedUrl DOMO_EMBED_ID embedToken) embedToken),
          [("Content-Type", "text/html"),
           ("Cache-Control", "no-cache, no-store, must-revalidate"),
           ("Pragma", "no-cache"),
           ("Expires", "0"),
           ("Set-Cookie", setCookieHeader embedToken)] ++ corsHeaders⟩,
         [tokenFetch, embedFetch])

end Pages


namespace Functions

/-- The fetch performed by getDomoAccessToken of the Functions
variant: POST to baseUrl/oauth/token with Basic auth built from
base64(clientId:clientSecret) and a client-credentials form body. -/
def getDomoAccessTokenRequest (baseUrl clientId clientSecret : String) : OutboundRequest :=
  ⟨baseUrl ++ "/oauth/token", "POST",
    "Basic " ++ btoa (clientId ++ ":" ++ clientSecret),
    some ("grant_type=client_credentials&scope=data%20dashboard"), none⟩

/-- Outcome of getDomoAccessToken on the stubbed upstream: the
access_token field on a 2xx answer, otherwise the thrown error
message. -/
def getDomoAccessToken (up : TokenUpstream) : Except String String :=
  if !statusOk up.status then
    Except.error ("OAuth request failed: " ++ toString up.status)
  else Except.ok up.access_token

/-- The fetch performed by generateEmbedToken of the Functions
variant: POST to baseUrl/api/content/v2/mobile with Bearer auth,
sessionLength 3600 and the app id as the authorization token. -/
def generateEmbedTokenRequest (baseUrl accessToken appId : String) : OutboundRequest :=
  ⟨baseUrl ++ "/api/content/v2/mobile", "POST", "Bearer " ++ accessToken,
    none, some ⟨3600, [⟨appId, ["READ", "FILTER"]⟩]⟩⟩

/-- Outcome of generateEmbedToken on the stubbed upstream: the
authentication field on a 2xx answer, otherwise the thrown error
message. -/
def generateEmbedToken (up : EmbedUpstream) : Except String String :=
  if !statusOk up.status then
    Except.error ("Embed token request failed: " ++ toString up.status)
  else Except.ok up.authentication

/-- The generateEmbedHtml function of the Functions variant: the full
HTML page with the embed URL baseUrl/content/appId?embedId=token
interpolated into the iframe src. -/
def generateEmbedHtml (baseUrl appId embedToken : String) : String :=
  FunctionsEmbedHtmlPre ++
    (baseUrl ++ "/content/" ++ appId ++ "?embedId=" ++ embedToken) ++
    FunctionsEmbedHtmlSuf

/-- The generateErrorHtml function of the Functions variant. -/
def generateErrorHtml (errorMessage : String) : String :=
  FunctionsErrorHtmlPre ++ errorMessage ++ FunctionsErrorHtmlSuf

/-- Headers of the success and catch responses of the Functions
variant: the CORS spread followed by text/html. -/
def htmlHeaders : List (String × String) :=
  corsHeaders ++ [("Content-Type", "text/html")]

/-- The default-export handler of the Functions variant: OPTIONS
preflight first, then config validation, then the two-step exchange
whose failures are thrown and caught into a 500 error-HTML response. -/
def handler (method : String) (env : Env) (up : Upstream) :
    HttpResult × List OutboundRequest :=
  if method == "OPTIONS" then
    (⟨200, none, corsHeaders⟩, [])
  else if missingAppConfig env then
    (⟨500, some configErrorBody, corsHeaders ++ [("Content-Type", "application/json")]⟩, [])
  else
    let DOMO_CLIENT_ID := env.DOMO_CLIENT_ID.getD ""
    let DOMO_CLIENT_SECRET := env.DOMO_CLIENT_SECRET.getD ""
    let DOMO_BASE_URL := env.DOMO_BASE_URL.getD ""
    let DOMO_APP_ID := env.DOMO_APP_ID.getD ""
    let tokenFetch := getDomoAccessTokenRequest DOMO_BASE_URL DOMO_CLIENT_ID DOMO_CLIENT_SECRET
    match getDomoAccessToken up.token with
    | Except.error msg =>
      (⟨500, some (generateErrorHtml msg), htmlHeaders⟩, [tokenFetch])
    | Except.ok accessToken =>
      if accessToken.isEmpty then
        (⟨500, some (generateErrorHtml ("Failed to obtain Domo access token")), htmlHeaders⟩,
         [tokenFetch])
      else
        let embedFetch := generateEmbedTokenRequest DOMO_BASE_URL accessToken DOMO_APP_ID
        match generateEmbedToken up.embed with
        | Except.error msg =>
          (⟨500, some (generateErrorHtml msg), htmlHeaders⟩, [tokenFetch, embedFetch])
        | Except.ok embedToken =>
          if embedToken.isEmpty then
            (⟨500, some (generateErrorHtml ("Failed to generate embed token")), htmlHeaders⟩,
             [tokenFetch, embedFetch])
          else
            (⟨200, some (generateEmbedHtml DOMO_BASE_URL DOMO_APP_ID embedToken), htmlHeaders⟩,
             [tokenFetch, embedFetch])

end Functions

namespace Part000

/-- The exported OPTIONS handler of the Part000 variant: 200, null
body, the three CORS headers; no outbound call occurs. -/
def OPTIONS : HttpResult :=
  ⟨200, none, corsHeaders⟩

/-- Body of the authentication-error response of the Part000 variant. -/
def authErrorBody (st : Nat) : String :=
  "\x7b\"error\":\"Authentication failed\",\"details\":" ++
    jsonStr ("Failed to get OAuth token: " ++ toString st) ++ "\x7d"

/-- Body of the embed-authorization-error response of the Part000
variant. -/
def embedErrorBody (st : Nat) : String :=
  "\x7b\"error\":\"Embed token generation failed\",\"details\":" ++
    jsonStr ("Failed to generate embed token: " ++ toString st) ++ "\x7d"

/-- The handleRequest function of the Part000 variant: the environment
is the runtime env as a whole when present, else process.env; GET
token exchange against the hardcoded api.domo.com URL; stories embed
endpoint with sessionLength 240 and the literal "embed-auth" as the
authorization token; full-page HTML success response whose iframe src
is baseUrl/embed/pages/appId?embedToken=token. -/
def handleRequest (runtimeEnv : Option Env) (processEnv : Env) (up : Upstream) :
    HttpResult × List OutboundRequest :=
  let env := runtimeEnv.getD processEnv
  if missingAppConfig env then
    (⟨500, some configErrorBody, ("Content-Type", "application/json") :: corsHeaders⟩, [])
  else
    let DOMO_CLIENT_ID := env.DOMO_CLIENT_ID.getD ""
    let DOMO_CLIENT_SECRET := env.DOMO_CLIENT_SECRET.getD ""
    let DOMO_BASE_URL := env.DOMO_BASE_URL.getD ""
    let DOMO_APP_ID := env.DOMO_APP_ID.getD ""
    let authString := btoa (DOMO_CLIENT_ID ++ ":" ++ DOMO_CLIENT_SECRET)
    let tokenFetch : OutboundRequest :=
      ⟨"https://api.domo.com/oauth/token?grant_type=client_credentials&scope=data%20audit%20user%20dashboard",
        "GET", "Basic " ++ authString, none, none⟩
    if !statusOk up.token.status then
      (⟨401, some (authErrorBody up.token.status),
        ("Content-Type", "application/json") :: corsHeaders⟩, [tokenFetch])
    else
      let embedFetch : OutboundRequest :=
        ⟨"https://api.domo.com/v1/stories/embed/auth", "POST",
          "Bearer " ++ up.token.access_token, none,
          some ⟨240, [⟨"embed-auth", ["READ"]⟩]⟩⟩
      if !statusOk up.embed.status then
        (⟨500, some (embedErrorBody up.embed.status),
          ("Content-Type", "application/json") :: corsHeaders⟩, [tokenFetch, embedFetch])
      else
        let embedUrl := DOMO_BASE_URL ++ "/embed/pages/" ++ DOMO_APP_ID ++
          "?embedToken=" ++ up.embed.authentication
        (⟨200, some (Part000HtmlPre ++ embedUrl ++ Part000HtmlSuf),
          [("Content-Type", "text/html"),
           ("Cache-Control", "no-cache, no-store, must-revalidate"),
           ("Pragma", "no-cache"),
           ("Expires", "0")] ++ corsHeaders⟩, [tokenFetch, embedFetch])

end Part000

namespace Part001

/-- The exported OPTIONS handler of the Part001 variant: 200, null
body, the three CORS headers; no outbound call occurs. -/
def OPTIONS : HttpResult :=
  ⟨200, none, corsHeaders⟩

/-- The handleRequest function of the Part001 variant: merged
environment (runtime precedence), POST token exchange against the
hardcoded api.domo.com/oauth/token with the scope in the form body,
cards embed endpoint with sessionLength 240 and the literal
"embed-auth" as the authorization token, bare-iframe success body.
Its authentication- and embed-error bodies are textually identical to
the Pages ones, so those helpers are reused. -/
def handleRequest (processEnv runtimeEnv : Env) (up : Upstream) :
    HttpResult × List OutboundRequest :=
  let env := mergeEnv processEnv runtimeEnv
  if missingEmbedConfig env then
    (⟨500, some configErrorBody, ("Content-Type", "application/json") :: corsHeaders⟩, [])
  else
    let DOMO_CLIENT_ID := env.DOMO_CLIENT_ID.getD ""
    let DOMO_CLIENT_SECRET := env.DOMO_CLIENT_SECRET.getD ""
    let DOMO_BASE_URL := env.DOMO_BASE_URL.getD ""
    let DOMO_EMBED_ID := env.DOMO_EMBED_ID.getD ""
    let authString := btoa (DOMO_CLIENT_ID ++ ":" ++ DOMO_CLIENT_SECRET)
    let tokenFetch : OutboundRequest :=
      ⟨"https://api.domo.com/oauth/token", "POST", "Basic " ++ authString,
        some ("grant_type=client_credentials&scope=user%20account%20data"), none⟩
    if !statusOk up.token.status then
      (⟨401,
        some (Pages.authErrorBody up.token.status DOMO_CLIENT_ID DOMO_BASE_URL up.token.errorText),
        ("Content-Type", "application/json") :: corsHeaders⟩, [tokenFetch])
    else
      let embedRequestBody : EmbedPayload :=
        ⟨240, [⟨"embed-auth", ["READ", "FILTER", "EXPORT"]⟩]⟩
      let embedFetch : OutboundRequest :=
        ⟨"https://api.domo.com/v1/cards/embed/auth", "POST",
          "Bearer " ++ up.token.access_token, none, some embedRequestBody⟩
      if !statusOk up.embed.status then
        (⟨500,
          some (Pages.embedErrorBody up.embed.status DOMO_EMBED_ID up.embed.errorText),
          ("Content-Type", "application/json") :: corsHeaders⟩, [tokenFetch, embedFetch])
      else
        let embedUrl := "https://embed.domo.com/cards/" ++ DOMO_EMBED_ID ++
          "?embedToken=" ++ up.embed.authentication
        (⟨200,
          some ("<iframe src=\"" ++ embedUrl ++
            "\" width=\"600\" height=\"600\" marginheight=\"0\" marginwidth=\"0\" frameborder=\"0\" title=\"Domo AI Agentguide\"></iframe>"),
          [("Content-Type", "text/html"),
           ("Cache-Control", "no-cache, no-store, must-revalidate"),
           ("Pragma", "no-cache"),
           ("Expires", "0")] ++ corsHeaders⟩, [tokenFetch, embedFetch])

end Part001


/-! ### Concrete fixtures used by witnesses and counterexamples -/

/-- A fully-populated environment. -/
def envA : Env :=
  ⟨some "client-0123456789", some "sekret-value", some "https://acme.domo.com",
   some "EMB01", some "APP01", none⟩

/-- An environment missing the client secret. -/
def envNoSecret : Env :=
  ⟨some "client-0123456789", none, some "https://acme.domo.com",
   some "EMB01", some "APP01", none⟩

/-- An entirely empty environment. -/
def envEmpty : Env := ⟨none, none, none, none, none, none⟩

/-- Upstream answering 2xx on both calls. -/
def upOk : Upstream := ⟨⟨200, "acc-token", ""⟩, ⟨200, "emb-token", ""⟩⟩

/-- Upstream whose token endpoint answers 500. -/
def upTokenFail : Upstream := ⟨⟨500, "", "bad client"⟩, ⟨200, "emb-token", ""⟩⟩

/-- Upstream whose token endpoint succeeds and whose embed endpoint
answers 403. -/
def upEmbedFail : Upstream := ⟨⟨200, "acc-token", ""⟩, ⟨403, "", "forbidden"⟩⟩

/-! ### Projection and merge helper lemmas -/

@[simp] theorem withSecret_DOMO_CLIENT_ID (e : Env) (s : Option String) :
    (e.withSecret s).DOMO_CLIENT_ID = e.DOMO_CLIENT_ID := rfl

@[simp] theorem withSecret_DOMO_CLIENT_SECRET (e : Env) (s : Option String) :
    (e.withSecret s).DOMO_CLIENT_SECRET = s := rfl

@[simp] theorem withSecret_DOMO_BASE_URL (e : Env) (s : Option String) :
    (e.withSecret s).DOMO_BASE_URL = e.DOMO_BASE_URL := rfl

@[simp] theorem withSecret_DOMO_EMBED_ID (e : Env) (s : Option String) :
    (e.withSecret s).DOMO_EMBED_ID = e.DOMO_EMBED_ID := rfl

@[simp] theorem withSecret_DOMO_APP_ID (e : Env) (s : Option String) :
    (e.withSecret s).DOMO_APP_ID = e.DOMO_APP_ID := rfl

@[simp] theorem withClientId_DOMO_CLIENT_ID (e : Env) (s : Option String) :
    (e.withClientId s).DOMO_CLIENT_ID = s := rfl

@[simp] theorem withClientId_DOMO_CLIENT_SECRET (e : Env) (s : Option String) :
    (e.withClientId s).DOMO_CLIENT_SECRET = e.DOMO_CLIENT_SECRET := rfl

@[simp] theorem withClientId_DOMO_BASE_URL (e : Env) (s : Option String) :
    (e.withClientId s).DOMO_BASE_URL = e.DOMO_BASE_URL := rfl

@[simp] theorem withClientId_DOMO_EMBED_ID (e : Env) (s : Option String) :
    (e.withClientId s).DOMO_EMBED_ID = e.DOMO_EMBED_ID := rfl

@[simp] theorem withClientId_DOMO_APP_ID (e : Env) (s : Option String) :
    (e.withClientId s).DOMO_APP_ID = e.DOMO_APP_ID := rfl

/-- Pushing `withSecret` through the merged environment. -/
theorem mergeEnv_withSecret (pe re : Env) (s : Option String) :
    mergeEnv (pe.withSecret s) (re.withSecret s) = (mergeEnv pe re).withSecret s := by
  cases s <;> rfl

/-- Pushing `withClientId` through the merged environment. -/
theorem mergeEnv_withClientId (pe re : Env) (s : Option String) :
    mergeEnv (pe.withClientId s) (re.withClientId s) = (mergeEnv pe re).withClientId s := by
  cases s <;> rfl

/-- Pushing `withEmbedType` through the merged environment. -/
theorem mergeEnv_withEmbedType (pe re : Env) (t u : Option String) :
    mergeEnv (pe.withEmbedType t) (re.withEmbedType u) =
      (mergeEnv pe re).withEmbedType (mergeField u t) := rfl

/-- The `DOMO_EMBED_ID`-keyed guard after overriding the secret with a
present value. -/
theorem missingEmbedConfig_withSecret_some (e : Env) (s : String) :
    missingEmbedConfig (e.withSecret (some s)) =
      (isFalsy e.DOMO_CLIENT_ID || s.isEmpty ||
        isFalsy e.DOMO_BASE_URL || isFalsy e.DOMO_EMBED_ID) := by
  simp [missingEmbedConfig, isFalsy, Env.withSecret]

/-- The `DOMO_APP_ID`-keyed guard after overriding the secret with a
present value. -/
theorem missingAppConfig_withSecret_some (e : Env) (s : String) :
    missingAppConfig (e.withSecret (some s)) =
      (isFalsy e.DOMO_CLIENT_ID || s.isEmpty ||
        isFalsy e.DOMO_BASE_URL || isFalsy e.DOMO_APP_ID) := by
  simp [missingAppConfig, isFalsy, Env.withSecret]

/-- The `DOMO_EMBED_ID`-keyed guard after overriding the client id with
a present value. -/
theorem missingEmbedConfig_withClientId_some (e : Env) (s : String) :
    missingEmbedConfig (e.withClientId (some s)) =
      (s.isEmpty || isFalsy e.DOMO_CLIENT_SECRET ||
        isFalsy e.DOMO_BASE_URL || isFalsy e.DOMO_EMBED_ID) := by
  simp [missingEmbedConfig, isFalsy, Env.withClientId]

/-- The `DOMO_APP_ID`-keyed guard after overriding the client id with a
present value. -/
theorem missingAppConfig_withClientId_some (e : Env) (s : String) :
    missingAppConfig (e.withClientId (some s)) =
      (s.isEmpty || isFalsy e.DOMO_CLIENT_SECRET ||
        isFalsy e.DOMO_BASE_URL || isFalsy e.DOMO_APP_ID) := by
  simp [missingAppConfig, isFalsy, Env.withClientId]

@[simp] theorem withAccessToken_token_status (u : Upstream) (t : String) :
    (u.withAccessToken t).token.status = u.token.status := rfl

@[simp] theorem withAccessToken_token_access_token (u : Upstream) (t : String) :
    (u.withAccessToken t).token.access_token = t := rfl

@[simp] theorem withAccessToken_token_errorText (u : Upstream) (t : String) :
    (u.withAccessToken t).token.errorText = u.token.errorText := rfl

@[simp] theorem withAccessToken_embed (u : Upstream) (t : String) :
    (u.withAccessToken t).embed = u.embed := rfl

@[simp] theorem withAuthentication_token (u : Upstream) (a : String) :
    (u.withAuthentication a).token = u.token := rfl

@[simp] theorem withAuthentication_embed_status (u : Upstream) (a : String) :
    (u.withAuthentication a).embed.status = u.embed.status := rfl

@[simp] theorem withAuthentication_embed_authentication (u : Upstream) (a : String) :
    (u.withAuthentication a).embed.authentication = a := rfl

@[simp] theorem withAuthentication_embed_errorText (u : Upstream) (a : String) :
    (u.withAuthentication a).embed.errorText = u.embed.errorText := rfl

/-- Containment of the middle part of a three-way concatenation. -/
theorem strContains_append (pre pat suf : String) :
    strContains (pre ++ pat ++ suf) pat := by
  unfold strContains
  rw [String.data_append, String.data_append]
  exact List.infix_append _ _ _


@[simp] theorem withEmbedType_DOMO_CLIENT_ID (e : Env) (t : Option String) :
    (e.withEmbedType t).DOMO_CLIENT_ID = e.DOMO_CLIENT_ID := rfl

@[simp] theorem withEmbedType_DOMO_CLIENT_SECRET (e : Env) (t : Option String) :
    (e.withEmbedType t).DOMO_CLIENT_SECRET = e.DOMO_CLIENT_SECRET := rfl

@[simp] theorem withEmbedType_DOMO_BASE_URL (e : Env) (t : Option String) :
    (e.withEmbedType t).DOMO_BASE_URL = e.DOMO_BASE_URL := rfl

@[simp] theorem withEmbedType_DOMO_EMBED_ID (e : Env) (t : Option String) :
    (e.withEmbedType t).DOMO_EMBED_ID = e.DOMO_EMBED_ID := rfl

@[simp] theorem withEmbedType_DOMO_APP_ID (e : Env) (t : Option String) :
    (e.withEmbedType t).DOMO_APP_ID = e.DOMO_APP_ID := rfl

/-- The Pages handler never reads `DOMO_EMBED_TYPE`. -/
theorem pages_handleRequest_withEmbedType (pe re : Env) (t u : Option String) (up : Upstream) :
    Pages.handleRequest (pe.withEmbedType t) (re.withEmbedType u) up =
      Pages.handleRequest pe re up := by
  simp only [Pages.handleRequest, mergeEnv_withEmbedType, missingEmbedConfig,
    withEmbedType_DOMO_CLIENT_ID, withEmbedType_DOMO_CLIENT_SECRET,
    withEmbedType_DOMO_BASE_URL, withEmbedType_DOMO_EMBED_ID]

/-- The Part001 handler never reads `DOMO_EMBED_TYPE`. -/
theorem part001_handleRequest_withEmbedType (pe re : Env) (t u : Option String) (up : Upstream) :
    Part001.handleRequest (pe.withEmbedType t) (re.withEmbedType u) up =
      Part001.handleRequest pe re up := by
  simp only [Part001.handleRequest, mergeEnv_withEmbedType, missingEmbedConfig,
    withEmbedType_DOMO_CLIENT_ID, withEmbedType_DOMO_CLIENT_SECRET,
    withEmbedType_DOMO_BASE_URL, withEmbedType_DOMO_EMBED_ID]

/-- The Part000 handler never reads `DOMO_EMBED_TYPE`. -/
theorem part000_handleRequest_withEmbedType (oe : Option Env) (penv : Env)
    (t u : Option String) (up : Upstream) :
    Part000.handleRequest (oe.map (fun e => e.withEmbedType t)) (penv.withEmbedType u) up =
      Part000.handleRequest oe penv up := by
  cases oe <;> simp [Part000.handleRequest, missingAppConfig]

/-- Claim C10: two runs of the merged-environment handlers that differ
only in the value or presence of `DOMO_EMBED_TYPE` (in either
environment source), with all other inputs and upstream answers fixed,
produce identical outcomes — response and outbound calls alike.  This
holds for the Pages and Part001 merged-environment variants and for
the Part000 variant as well. -/
theorem C10_embed_type_independence (pe re penv : Env) (oe : Option Env) (up : Upstream)
    (t u v w : Option String) :
    Pages.handleRequest (pe.withEmbedType t) (re.withEmbedType u) up =
      Pages.handleRequest (pe.withEmbedType v) (re.withEmbedType w) up ∧
    Part001.handleRequest (pe.withEmbedType t) (re.withEmbedType u) up =
      Part001.handleRequest (pe.withEmbedType v) (re.withEmbedType w) up ∧
    Part000.handleRequest (oe.map (fun e => e.withEmbedType t)) (penv.withEmbedType u) up =
      Part000.handleRequest (oe.map (fun e => e.withEmbedType v)) (penv.withEmbedType w) up := by
  refine ⟨?_, ?_, ?_⟩
  · rw [pages_handleRequest_withEmbedType, pages_handleRequest_withEmbedType]
  · rw [part001_handleRequest_withEmbedType, part001_handleRequest_withEmbedType]
  · rw [part000_handleRequest_withEmbedType, part000_handleRequest_withEmbedType]

/-- Claim C2: a request with any required configuration field absent or
empty yields status 500 with the configuration-error body and performs
zero outbound calls, in all four variants (for the Functions variant,
on any non-OPTIONS method; OPTIONS requests are answered by the
preflight branch before validation). -/
theorem C2_config_error_500_no_calls (pe re env penv : Env) (oe : Option Env)
    (up : Upstream) (method : String)
    (h1 : missingEmbedConfig (mergeEnv pe re) = true)
    (h2 : missingAppConfig env = true)
    (hm : method ≠ "OPTIONS")
    (h3 : missingAppConfig (oe.getD penv) = true) :
    Pages.handleRequest pe re up =
      (⟨500, some configErrorBody, ("Content-Type", "application/json") :: corsHeaders⟩, []) ∧
    Functions.handler method env up =
      (⟨500, some configErrorBody, corsHeaders ++ [("Content-Type", "application/json")]⟩, []) ∧
    Part000.handleRequest oe penv up =
      (⟨500, some configErrorBody, ("Content-Type", "application/json") :: corsHeaders⟩, []) ∧
    Part001.handleRequest pe re up =
      (⟨500, some configErrorBody, ("Content-Type", "application/json") :: corsHeaders⟩, []) := by
  refine ⟨?_, ?_, ?_, ?_⟩ <;>
    simp [Pages.handleRequest, Functions.handler, Part000.handleRequest, Part001.handleRequest,
      h1, h2, h3, hm]

/-- Witness for C2: concrete environments missing the client secret. -/
theorem C2_config_error_500_no_calls_witness :
    missingEmbedConfig (mergeEnv envEmpty envNoSecret) = true ∧
    missingAppConfig envNoSecret = true ∧
    ("GET" : String) ≠ "OPTIONS" ∧
    missingAppConfig ((some envNoSecret).getD envA) = true ∧
    (Pages.handleRequest envEmpty envNoSecret upOk =
      (⟨500, some configErrorBody, ("Content-Type", "application/json") :: corsHeaders⟩, []) ∧
    Functions.handler "GET" envNoSecret upOk =
      (⟨500, some configErrorBody, corsHeaders ++ [("Content-Type", "application/json")]⟩, []) ∧
    Part000.handleRequest (some envNoSecret) envA upOk =
      (⟨500, some configErrorBody, ("Content-Type", "application/json") :: corsHeaders⟩, []) ∧
    Part001.handleRequest envEmpty envNoSecret upOk =
      (⟨500, some configErrorBody, ("Content-Type", "application/json") :: corsHeaders⟩, [])) :=
  ⟨by decide, by decide, by decide, by decide,
   C2_config_error_500_no_calls envEmpty envNoSecret envNoSecret envA (some envNoSecret)
     upOk "GET" (by decide) (by decide) (by decide) (by decide)⟩

/-- Claim C9: OPTIONS requests always return 200 with an empty body and
the three CORS headers and perform no outbound call, regardless of
configuration validity: the dedicated OPTIONS exports of the Pages,
Part000 and Part001 variants take no environment at all, and the
Functions handler answers the preflight before reading or validating
the environment. -/
theorem C9_options_requests (env : Env) (up : Upstream) :
    Pages.OPTIONS = ⟨200, none, corsHeaders⟩ ∧
    Part000.OPTIONS = ⟨200, none, corsHeaders⟩ ∧
    Part001.OPTIONS = ⟨200, none, corsHeaders⟩ ∧
    Functions.handler "OPTIONS" env up = (⟨200, none, corsHeaders⟩, []) :=
  ⟨rfl, rfl, rfl, rfl⟩


/-- Derived view of the response component of the Pages handler as a
function of exactly the inputs that response depends on; proven equal
to the handler's response in `Pages.handleRequest_fst`.  Note the
client secret and the access token are not among the inputs. -/
def pagesResponseView (missing : Bool) (cid baseUrl embedId : String)
    (tokenStatus : Nat) (tokenErrorText : String)
    (embedStatus : Nat) (embedErrorText : String) (authentication : String) : HttpResult :=
  if missing then
    ⟨500, some configErrorBody, ("Content-Type", "application/json") :: corsHeaders⟩
  else if !statusOk tokenStatus then
    ⟨401, some (Pages.authErrorBody tokenStatus cid baseUrl tokenErrorText),
      ("Content-Type", "application/json") :: corsHeaders⟩
  else if !statusOk embedStatus then
    ⟨500, some (Pages.embedErrorBody embedStatus embedId embedErrorText),
      ("Content-Type", "application/json") :: corsHeaders⟩
  else
    ⟨200, some (Pages.iframeHtml (Pages.embedUrl embedId authentication) authentication),
      [("Content-Type", "text/html"),
       ("Cache-Control", "no-cache, no-store, must-revalidate"),
       ("Pragma", "no-cache"), ("Expires", "0"),
       ("Set-Cookie", Pages.setCookieHeader authentication)] ++ corsHeaders⟩

/-- The Pages response is exactly the view applied to the inputs the
response depends on. -/
theorem Pages.handleRequest_fst (pe re : Env) (up : Upstream) :
    (Pages.handleRequest pe re up).1 =
      pagesResponseView (missingEmbedConfig (mergeEnv pe re))
        ((mergeEnv pe re).DOMO_CLIENT_ID.getD "") ((mergeEnv pe re).DOMO_BASE_URL.getD "")
        ((mergeEnv pe re).DOMO_EMBED_ID.getD "")
        up.token.status up.token.errorText up.embed.status up.embed.errorText
        up.embed.authentication := by
  cases hm : missingEmbedConfig (mergeEnv pe re) <;>
  cases ht : statusOk up.token.status <;>
  cases he : statusOk up.embed.status <;>
  simp [Pages.handleRequest, pagesResponseView, hm, ht, he]

/-- Derived view of the response component of the Functions handler as
a function of exactly the inputs that response depends on; proven
equal to the handler's response in `Functions.handler_fst`.  Note the
client id, the client secret and the access-token value (beyond its
emptiness) are not among the inputs. -/
def functionsResponseView (isOpt missing : Bool) (baseUrl appId : String)
    (tokenStatus : Nat) (accEmpty : Bool)
    (embedStatus : Nat) (authEmpty : Bool) (authentication : String) : HttpResult :=
  if isOpt then ⟨200, none, corsHeaders⟩
  else if missing then
    ⟨500, some configErrorBody, corsHeaders ++ [("Content-Type", "application/json")]⟩
  else if !statusOk tokenStatus then
    ⟨500, some (Functions.generateErrorHtml ("OAuth request failed: " ++ toString tokenStatus)),
      Functions.htmlHeaders⟩
  else if accEmpty then
    ⟨500, some (Functions.generateErrorHtml ("Failed to obtain Domo access token")),
      Functions.htmlHeaders⟩
  else if !statusOk embedStatus then
    ⟨500, some (Functions.generateErrorHtml ("Embed token request failed: " ++ toString embedStatus)),
      Functions.htmlHeaders⟩
  else if authEmpty then
    ⟨500, some (Functions.generateErrorHtml ("Failed to generate embed token")),
      Functions.htmlHeaders⟩
  else
    ⟨200, some (Functions.generateEmbedHtml baseUrl appId authentication),
      Functions.htmlHeaders⟩

/-- The Functions response is exactly the view applied to the inputs
the response depends on. -/
theorem Functions.handler_fst (method : String) (env : Env) (up : Upstream) :
    (Functions.handler method env up).1 =
      functionsResponseView (method == "OPTIONS") (missingAppConfig env)
        (env.DOMO_BASE_URL.getD "") (env.DOMO_APP_ID.getD "")
        up.token.status up.token.access_token.isEmpty
        up.embed.status up.embed.authentication.isEmpty up.embed.authentication := by
  cases ho : (method == "OPTIONS") <;>
  cases hm : missingAppConfig env <;>
  cases ht : statusOk up.token.status <;>
  cases ha : up.token.access_token.isEmpty <;>
  cases he : statusOk up.embed.status <;>
  cases hau : up.embed.authentication.isEmpty <;>
  simp [Functions.handler, functionsResponseView, Functions.getDomoAccessToken,
    Functions.generateEmbedToken, ho, hm, ht, ha, he, hau]

/-- The truncated client-id diagnostic: two non-empty client ids that
agree on their first 8 characters yield the same authentication-error
body. -/
theorem Pages.authErrorBody_take8 (st : Nat) (c₁ c₂ url txt : String)
    (h : c₁.take 8 = c₂.take 8) (h₁ : c₁.isEmpty = false) (h₂ : c₂.isEmpty = false) :
    Pages.authErrorBody st c₁ url txt = Pages.authErrorBody st c₂ url txt := by
  simp [Pages.authErrorBody, h, h₁, h₂]


/-- Claim C1, counterexample to the 401 part: a concrete run of the
Functions variant with a valid configuration whose token endpoint
answers 500 produces a response with status 500 (the thrown
authentication failure is caught into the generic error page), not
401. -/
theorem C1_counterexample :
    (Functions.handler "GET" envA upTokenFail).1.status = 500 ∧
    ¬ (Functions.handler "GET" envA upTokenFail).1.status = 401 :=
  ⟨rfl, by decide⟩

/-- Claim C1 amended: on every run with a valid configuration in which
the token endpoint answers a non-2xx status, no variant calls the
embed-authorization endpoint — the run's single outbound call is the
token request.  The Pages, Part000 and Part001 variants respond 401;
the Functions variant instead responds 500. -/
theorem C1_amended_token_failure_no_embed_call
    (pe re env penv : Env) (oe : Option Env) (up : Upstream) (method : String)
    (h1 : missingEmbedConfig (mergeEnv pe re) = false)
    (h2 : missingAppConfig env = false)
    (hm : method ≠ "OPTIONS")
    (h3 : missingAppConfig (oe.getD penv) = false)
    (ht : statusOk up.token.status = false) :
    ((Pages.handleRequest pe re up).1.status = 401 ∧
      (Pages.handleRequest pe re up).2.map OutboundRequest.url =
        ["https://api.domo.com/oauth/token?grant_type=client_credentials&scope=data%20audit%20user%20dashboard"]) ∧
    ((Functions.handler method env up).1.status = 500 ∧
      (Functions.handler method env up).2.map OutboundRequest.url =
        [env.DOMO_BASE_URL.getD "" ++ "/oauth/token"]) ∧
    ((Part000.handleRequest oe penv up).1.status = 401 ∧
      (Part000.handleRequest oe penv up).2.map OutboundRequest.url =
        ["https://api.domo.com/oauth/token?grant_type=client_credentials&scope=data%20audit%20user%20dashboard"]) ∧
    ((Part001.handleRequest pe re up).1.status = 401 ∧
      (Part001.handleRequest pe re up).2.map OutboundRequest.url =
        ["https://api.domo.com/oauth/token"]) := by
  refine ⟨⟨?_, ?_⟩, ⟨?_, ?_⟩, ⟨?_, ?_⟩, ⟨?_, ?_⟩⟩ <;>
    simp [Pages.handleRequest, Functions.handler, Functions.getDomoAccessToken,
      Functions.getDomoAccessTokenRequest, Part000.handleRequest, Part001.handleRequest,
      h1, h2, h3, hm, ht]

/-- Witness for the amended C1 at concrete inputs. -/
theorem C1_amended_token_failure_no_embed_call_witness :
    missingEmbedConfig (mergeEnv envEmpty envA) = false ∧
    missingAppConfig envA = false ∧
    ("GET" : String) ≠ "OPTIONS" ∧
    missingAppConfig ((some envA).getD envEmpty) = false ∧
    statusOk upTokenFail.token.status = false ∧
    (((Pages.handleRequest envEmpty envA upTokenFail).1.status = 401 ∧
      (Pages.handleRequest envEmpty envA upTokenFail).2.map OutboundRequest.url =
        ["https://api.domo.com/oauth/token?grant_type=client_credentials&scope=data%20audit%20user%20dashboard"]) ∧
    ((Functions.handler "GET" envA upTokenFail).1.status = 500 ∧
      (Functions.handler "GET" envA upTokenFail).2.map OutboundRequest.url =
        [envA.DOMO_BASE_URL.getD "" ++ "/oauth/token"]) ∧
    ((Part000.handleRequest (some envA) envEmpty upTokenFail).1.status = 401 ∧
      (Part000.handleRequest (some envA) envEmpty upTokenFail).2.map OutboundRequest.url =
        ["https://api.domo.com/oauth/token?grant_type=client_credentials&scope=data%20audit%20user%20dashboard"]) ∧
    ((Part001.handleRequest envEmpty envA upTokenFail).1.status = 401 ∧
      (Part001.handleRequest envEmpty envA upTokenFail).2.map OutboundRequest.url =
        ["https://api.domo.com/oauth/token"])) :=
  ⟨by decide, by decide, by decide, by decide, by decide,
   C1_amended_token_failure_no_embed_call envEmpty envA envA envEmpty (some envA)
     upTokenFail "GET" (by decide) (by decide) (by decide) (by decide) (by decide)⟩

/-- Claim C4: across the error and success variants of the cited
handlers, the response never depends on the client secret, never
depends on the access-token value (beyond its JS-falsiness in the
Functions variant), depends on the client id only through its first 8
characters (the truncated diagnostic of the Pages
authentication-error body), and — on runs where the
embed-authorization endpoint fails — does not depend on the embed
token either.  Hence no response body can carry the secret or a full
token value. -/
theorem C4_no_secret_or_token_leak
    (pe re env : Env) (up : Upstream) (method : String)
    (s₁ s₂ c₁ c₂ t₁ t₂ a₁ a₂ : String)
    (hs₁ : s₁.isEmpty = false) (hs₂ : s₂.isEmpty = false)
    (hc₁ : c₁.isEmpty = false) (hc₂ : c₂.isEmpty = false)
    (hc : c₁.take 8 = c₂.take 8)
    (htk : t₁.isEmpty = t₂.isEmpty)
    (he : statusOk up.embed.status = false) :
    ((Pages.handleRequest (pe.withSecret (some s₁)) (re.withSecret (some s₁)) up).1 =
      (Pages.handleRequest (pe.withSecret (some s₂)) (re.withSecret (some s₂)) up).1) ∧
    ((Functions.handler method (env.withSecret (some s₁)) up).1 =
      (Functions.handler method (env.withSecret (some s₂)) up).1) ∧
    ((Pages.handleRequest (pe.withClientId (some c₁)) (re.withClientId (some c₁)) up).1 =
      (Pages.handleRequest (pe.withClientId (some c₂)) (re.withClientId (some c₂)) up).1) ∧
    ((Functions.handler method (env.withClientId (some c₁)) up).1 =
      (Functions.handler method (env.withClientId (some c₂)) up).1) ∧
    ((Pages.handleRequest pe re (up.withAccessToken t₁)).1 =
      (Pages.handleRequest pe re (up.withAccessToken t₂)).1) ∧
    ((Functions.handler method env (up.withAccessToken t₁)).1 =
      (Functions.handler method env (up.withAccessToken t₂)).1) ∧
    ((Pages.handleRequest pe re (up.withAuthentication a₁)).1 =
      (Pages.handleRequest pe re (up.withAuthentication a₂)).1) ∧
    ((Functions.handler method env (up.withAuthentication a₁)).1 =
      (Functions.handler method env (up.withAuthentication a₂)).1) := by
  refine ⟨?_, ?_, ?_, ?_, ?_, ?_, ?_, ?_⟩
  · rw [Pages.handleRequest_fst, Pages.handleRequest_fst, mergeEnv_withSecret, mergeEnv_withSecret]
    simp [missingEmbedConfig_withSecret_some, hs₁, hs₂]
  · rw [Functions.handler_fst, Functions.handler_fst]
    simp [missingAppConfig_withSecret_some, hs₁, hs₂]
  · rw [Pages.handleRequest_fst, Pages.handleRequest_fst, mergeEnv_withClientId,
      mergeEnv_withClientId]
    simp [missingEmbedConfig_withClientId_some, hc₁, hc₂, pagesResponseView,
      Pages.authErrorBody, hc]
  · rw [Functions.handler_fst, Functions.handler_fst]
    simp [missingAppConfig_withClientId_some, hc₁, hc₂]
  · rw [Pages.handleRequest_fst, Pages.handleRequest_fst]
    simp
  · rw [Functions.handler_fst, Functions.handler_fst]
    simp [htk]
  · rw [Pages.handleRequest_fst, Pages.handleRequest_fst]
    simp [pagesResponseView, he]
  · rw [Functions.handler_fst, Functions.handler_fst]
    simp [functionsResponseView, he]

/-- Witness for C4 at concrete inputs: two secrets, two client ids
agreeing on their first 8 characters, two access tokens, two embed
tokens, and an upstream whose embed endpoint fails. -/
theorem C4_no_secret_or_token_leak_witness :
    ("sek1" : String).isEmpty = false ∧ ("sek2x" : String).isEmpty = false ∧
    ("client-01AAA" : String).isEmpty = false ∧ ("client-01BBB" : String).isEmpty = false ∧
    ("client-01AAA" : String).take 8 = ("client-01BBB" : String).take 8 ∧
    ("tok1" : String).isEmpty = ("tok2x" : String).isEmpty ∧
    statusOk upEmbedFail.embed.status = false ∧
    (((Pages.handleRequest (envEmpty.withSecret (some "sek1")) (envA.withSecret (some "sek1")) upEmbedFail).1 =
      (Pages.handleRequest (envEmpty.withSecret (some "sek2x")) (envA.withSecret (some "sek2x")) upEmbedFail).1) ∧
    ((Functions.handler "GET" (envA.withSecret (some "sek1")) upEmbedFail).1 =
      (Functions.handler "GET" (envA.withSecret (some "sek2x")) upEmbedFail).1) ∧
    ((Pages.handleRequest (envEmpty.withClientId (some "client-01AAA")) (envA.withClientId (some "client-01AAA")) upEmbedFail).1 =
      (Pages.handleRequest (envEmpty.withClientId (some "client-01BBB")) (envA.withClientId (some "client-01BBB")) upEmbedFail).1) ∧
    ((Functions.handler "GET" (envA.withClientId (some "client-01AAA")) upEmbedFail).1 =
      (Functions.handler "GET" (envA.withClientId (some "client-01BBB")) upEmbedFail).1) ∧
    ((Pages.handleRequest envEmpty envA (upEmbedFail.withAccessToken "tok1")).1 =
      (Pages.handleRequest envEmpty envA (upEmbedFail.withAccessToken "tok2x")).1) ∧
    ((Functions.handler "GET" envA (upEmbedFail.withAccessToken "tok1")).1 =
      (Functions.handler "GET" envA (upEmbedFail.withAccessToken "tok2x")).1) ∧
    ((Pages.handleRequest envEmpty envA (upEmbedFail.withAuthentication "auth1")).1 =
      (Pages.handleRequest envEmpty envA (upEmbedFail.withAuthentication "auth2")).1) ∧
    ((Functions.handler "GET" envA (upEmbedFail.withAuthentication "auth1")).1 =
      (Functions.handler "GET" envA (upEmbedFail.withAuthentication "auth2")).1)) :=
  ⟨by decide, by decide, by decide, by decide, by decide, by decide, by decide,
   C4_no_secret_or_token_leak envEmpty envA envA upEmbedFail "GET"
     "sek1" "sek2x" "client-01AAA" "client-01BBB" "tok1" "tok2x" "auth1" "auth2"
     (by decide) (by decide) (by decide) (by decide) (by decide) (by decide) (by decide)⟩


/-- Outbound calls of the Pages handler on runs whose token exchange
succeeds: exactly the token fetch then the embed fetch, whatever the
embed endpoint answers. -/
theorem pages_calls_token_ok (pe re : Env) (up : Upstream)
    (h : missingEmbedConfig (mergeEnv pe re) = false)
    (ht : statusOk up.token.status = true) :
    (Pages.handleRequest pe re up).2 =
      [⟨"https://api.domo.com/oauth/token?grant_type=client_credentials&scope=data%20audit%20user%20dashboard",
        "GET",
        "Basic " ++ btoa ((mergeEnv pe re).DOMO_CLIENT_ID.getD "" ++ ":" ++
          (mergeEnv pe re).DOMO_CLIENT_SECRET.getD ""), none, none⟩,
       ⟨"https://api.domo.com/v1/cards/embed/auth", "POST",
        "Bearer " ++ up.token.access_token, none,
        some ⟨1440, [⟨(mergeEnv pe re).DOMO_EMBED_ID.getD "", ["READ", "FILTER", "EXPORT"]⟩]⟩⟩] := by
  cases he : statusOk up.embed.status <;> simp [Pages.handleRequest, h, ht, he]

/-- Outbound calls of the Functions handler on runs whose token
exchange succeeds with a non-empty access token: exactly the token
fetch then the embed fetch. -/
theorem functions_calls_token_ok (env : Env) (up : Upstream) (method : String)
    (hm : method ≠ "OPTIONS") (h : missingAppConfig env = false)
    (ht : statusOk up.token.status = true) (ha : up.token.access_token.isEmpty = false) :
    (Functions.handler method env up).2 =
      [Functions.getDomoAccessTokenRequest (env.DOMO_BASE_URL.getD "")
        (env.DOMO_CLIENT_ID.getD "") (env.DOMO_CLIENT_SECRET.getD ""),
       Functions.generateEmbedTokenRequest (env.DOMO_BASE_URL.getD "")
        up.token.access_token (env.DOMO_APP_ID.getD "")] := by
  cases he : statusOk up.embed.status <;> cases hau : up.embed.authentication.isEmpty <;>
    simp [Functions.handler, Functions.getDomoAccessToken, Functions.generateEmbedToken,
      hm, h, ht, ha, he, hau]

/-- Outbound calls of the Part000 handler on runs whose token exchange
succeeds. -/
theorem part000_calls_token_ok (oe : Option Env) (penv : Env) (up : Upstream)
    (h : missingAppConfig (oe.getD penv) = false)
    (ht : statusOk up.token.status = true) :
    (Part000.handleRequest oe penv up).2 =
      [⟨"https://api.domo.com/oauth/token?grant_type=client_credentials&scope=data%20audit%20user%20dashboard",
        "GET",
        "Basic " ++ btoa ((oe.getD penv).DOMO_CLIENT_ID.getD "" ++ ":" ++
          (oe.getD penv).DOMO_CLIENT_SECRET.getD ""), none, none⟩,
       ⟨"https://api.domo.com/v1/stories/embed/auth", "POST",
        "Bearer " ++ up.token.access_token, none,
        some ⟨240, [⟨"embed-auth", ["READ"]⟩]⟩⟩] := by
  cases he : statusOk up.embed.status <;> simp [Part000.handleRequest, h, ht, he]

/-- Outbound calls of the Part001 handler on runs whose token exchange
succeeds. -/
theorem part001_calls_token_ok (pe re : Env) (up : Upstream)
    (h : missingEmbedConfig (mergeEnv pe re) = false)
    (ht : statusOk up.token.status = true) :
    (Part001.handleRequest pe re up).2 =
      [⟨"https://api.domo.com/oauth/token", "POST",
        "Basic " ++ btoa ((mergeEnv pe re).DOMO_CLIENT_ID.getD "" ++ ":" ++
          (mergeEnv pe re).DOMO_CLIENT_SECRET.getD ""),
        some ("grant_type=client_credentials&scope=user%20account%20data"), none⟩,
       ⟨"https://api.domo.com/v1/cards/embed/auth", "POST",
        "Bearer " ++ up.token.access_token, none,
        some ⟨240, [⟨"embed-auth", ["READ", "FILTER", "EXPORT"]⟩]⟩⟩] := by
  cases he : statusOk up.embed.status <;> simp [Part001.handleRequest, h, ht, he]


/-- Claim C5, counterexample: the configuration never supplies a
session length, and a concrete successful Pages run sends
sessionLength 1440 — not 240 — in its embed-authorization payload. -/
theorem C5_counterexample :
    (Pages.handleRequest envEmpty envA upOk).2.map
        (fun r => r.jsonPayload.map EmbedPayload.sessionLength) = [none, some 1440] ∧
    ¬ (Pages.handleRequest envEmpty envA upOk).2.map
        (fun r => r.jsonPayload.map EmbedPayload.sessionLength) = [none, some 240] :=
  ⟨rfl, by decide⟩

/-- Claim C5 amended: the session length of the embed-authorization
payload is hardcoded per variant — 240 minutes in the Part000 and
Part001 variants, but 1440 in the Pages variant and 3600 in the
Functions variant. -/
theorem C5_amended_session_lengths
    (pe re env penv : Env) (oe : Option Env) (up : Upstream) (method : String)
    (h1 : missingEmbedConfig (mergeEnv pe re) = false)
    (h2 : missingAppConfig env = false) (hm : method ≠ "OPTIONS")
    (ha : up.token.access_token.isEmpty = false)
    (h3 : missingAppConfig (oe.getD penv) = false)
    (ht : statusOk up.token.status = true) :
    (Pages.handleRequest pe re up).2.map
        (fun r => r.jsonPayload.map EmbedPayload.sessionLength) = [none, some 1440] ∧
    (Functions.handler method env up).2.map
        (fun r => r.jsonPayload.map EmbedPayload.sessionLength) = [none, some 3600] ∧
    (Part000.handleRequest oe penv up).2.map
        (fun r => r.jsonPayload.map EmbedPayload.sessionLength) = [none, some 240] ∧
    (Part001.handleRequest pe re up).2.map
        (fun r => r.jsonPayload.map EmbedPayload.sessionLength) = [none, some 240] := by
  rw [pages_calls_token_ok pe re up h1 ht, functions_calls_token_ok env up method hm h2 ht ha,
    part000_calls_token_ok oe penv up h3 ht, part001_calls_token_ok pe re up h1 ht]
  simp [Functions.getDomoAccessTokenRequest, Functions.generateEmbedTokenRequest]

/-- Witness for the amended C5 at concrete inputs. -/
theorem C5_amended_session_lengths_witness :
    missingEmbedConfig (mergeEnv envEmpty envA) = false ∧
    missingAppConfig envA = false ∧ ("GET" : String) ≠ "OPTIONS" ∧
    upOk.token.access_token.isEmpty = false ∧
    missingAppConfig ((some envA).getD envEmpty) = false ∧
    statusOk upOk.token.status = true ∧
    ((Pages.handleRequest envEmpty envA upOk).2.map
        (fun r => r.jsonPayload.map EmbedPayload.sessionLength) = [none, some 1440] ∧
    (Functions.handler "GET" envA upOk).2.map
        (fun r => r.jsonPayload.map EmbedPayload.sessionLength) = [none, some 3600] ∧
    (Part000.handleRequest (some envA) envEmpty upOk).2.map
        (fun r => r.jsonPayload.map EmbedPayload.sessionLength) = [none, some 240] ∧
    (Part001.handleRequest envEmpty envA upOk).2.map
        (fun r => r.jsonPayload.map EmbedPayload.sessionLength) = [none, some 240]) :=
  ⟨by decide, by decide, by decide, by decide, by decide, by decide,
   C5_amended_session_lengths envEmpty envA envA envEmpty (some envA) upOk "GET"
     (by decide) (by decide) (by decide) (by decide) (by decide) (by decide)⟩

/-- Claim C8, counterexample: a concrete successful Part000 run whose
configured asset identifier is APP01 sends a single authorization
entry whose token field is the hardcoded literal "embed-auth", not the
asset identifier. -/
theorem C8_counterexample :
    (Part000.handleRequest (some envA) envEmpty upOk).2.map (fun r => r.jsonPayload) =
      [none, some ⟨240, [⟨"embed-auth", ["READ"]⟩]⟩] ∧
    ¬ ("embed-auth" : String) = ((some envA).getD envEmpty).DOMO_APP_ID.getD "" :=
  ⟨rfl, by decide⟩

/-- Claim C8 amended: the Pages and Functions variants do put the
configured asset identifier into the authorization entry's token
field, but the Part000 and Part001 variants send the fixed literal
"embed-auth" instead, ignoring the configured identifier. -/
theorem C8_amended_authorization_tokens
    (pe re env penv : Env) (oe : Option Env) (up : Upstream) (method : String)
    (h1 : missingEmbedConfig (mergeEnv pe re) = false)
    (h2 : missingAppConfig env = false) (hm : method ≠ "OPTIONS")
    (ha : up.token.access_token.isEmpty = false)
    (h3 : missingAppConfig (oe.getD penv) = false)
    (ht : statusOk up.token.status = true) :
    (Pages.handleRequest pe re up).2.map (fun r => r.jsonPayload) =
      [none, some ⟨1440, [⟨(mergeEnv pe re).DOMO_EMBED_ID.getD "", ["READ", "FILTER", "EXPORT"]⟩]⟩] ∧
    (Functions.handler method env up).2.map (fun r => r.jsonPayload) =
      [none, some ⟨3600, [⟨env.DOMO_APP_ID.getD "", ["READ", "FILTER"]⟩]⟩] ∧
    (Part000.handleRequest oe penv up).2.map (fun r => r.jsonPayload) =
      [none, some ⟨240, [⟨"embed-auth", ["READ"]⟩]⟩] ∧
    (Part001.handleRequest pe re up).2.map (fun r => r.jsonPayload) =
      [none, some ⟨240, [⟨"embed-auth", ["READ", "FILTER", "EXPORT"]⟩]⟩] := by
  rw [pages_calls_token_ok pe re up h1 ht, functions_calls_token_ok env up method hm h2 ht ha,
    part000_calls_token_ok oe penv up h3 ht, part001_calls_token_ok pe re up h1 ht]
  simp [Functions.getDomoAccessTokenRequest, Functions.generateEmbedTokenRequest]

/-- Witness for the amended C8 at concrete inputs. -/
theorem C8_amended_authorization_tokens_witness :
    missingEmbedConfig (mergeEnv envEmpty envA) = false ∧
    missingAppConfig envA = false ∧ ("GET" : String) ≠ "OPTIONS" ∧
    upOk.token.access_token.isEmpty = false ∧
    missingAppConfig ((some envA).getD envEmpty) = false ∧
    statusOk upOk.token.status = true ∧
    ((Pages.handleRequest envEmpty envA upOk).2.map (fun r => r.jsonPayload) =
      [none, some ⟨1440, [⟨(mergeEnv envEmpty envA).DOMO_EMBED_ID.getD "", ["READ", "FILTER", "EXPORT"]⟩]⟩] ∧
    (Functions.handler "GET" envA upOk).2.map (fun r => r.jsonPayload) =
      [none, some ⟨3600, [⟨envA.DOMO_APP_ID.getD "", ["READ", "FILTER"]⟩]⟩] ∧
    (Part000.handleRequest (some envA) envEmpty upOk).2.map (fun r => r.jsonPayload) =
      [none, some ⟨240, [⟨"embed-auth", ["READ"]⟩]⟩] ∧
    (Part001.handleRequest envEmpty envA upOk).2.map (fun r => r.jsonPayload) =
      [none, some ⟨240, [⟨"embed-auth", ["READ", "FILTER", "EXPORT"]⟩]⟩]) :=
  ⟨by decide, by decide, by decide, by decide, by decide, by decide,
   C8_amended_authorization_tokens envEmpty envA envA envEmpty (some envA) upOk "GET"
     (by decide) (by decide) (by decide) (by decide) (by decide) (by decide)⟩


/-- Claim C7, counterexample: a concrete Pages run whose configured
base URL is https://acme.domo.com sends its token request to the
hardcoded https://api.domo.com URL, not to the configured platform's
/oauth/token. -/
theorem C7_counterexample :
    (Pages.handleRequest envEmpty envA upOk).2.map OutboundRequest.url =
      ["https://api.domo.com/oauth/token?grant_type=client_credentials&scope=data%20audit%20user%20dashboard",
       "https://api.domo.com/v1/cards/embed/auth"] ∧
    ¬ ("https://api.domo.com/oauth/token?grant_type=client_credentials&scope=data%20audit%20user%20dashboard" : String) =
      (mergeEnv envEmpty envA).DOMO_BASE_URL.getD "" ++ "/oauth/token" :=
  ⟨rfl, by decide⟩

/-- Claim C7 amended: every variant's token request carries HTTP Basic
authentication built from base64(client_id:client_secret) and the
client-credentials grant, but only the Functions variant addresses the
configured platform's /oauth/token; the Pages and Part000 variants
send a GET to the hardcoded https://api.domo.com token URL with the
grant and scope in the query string, and the Part001 variant a POST to
the hardcoded https://api.domo.com/oauth/token with the grant in the
form body. -/
theorem C7_amended_token_request
    (pe re env penv : Env) (oe : Option Env) (up : Upstream) (method : String)
    (h1 : missingEmbedConfig (mergeEnv pe re) = false)
    (h2 : missingAppConfig env = false) (hm : method ≠ "OPTIONS")
    (h3 : missingAppConfig (oe.getD penv) = false) :
    (Pages.handleRequest pe re up).2.head? = some
      ⟨"https://api.domo.com/oauth/token?grant_type=client_credentials&scope=data%20audit%20user%20dashboard",
       "GET",
       "Basic " ++ btoa ((mergeEnv pe re).DOMO_CLIENT_ID.getD "" ++ ":" ++
         (mergeEnv pe re).DOMO_CLIENT_SECRET.getD ""), none, none⟩ ∧
    (Functions.handler method env up).2.head? = some
      ⟨env.DOMO_BASE_URL.getD "" ++ "/oauth/token", "POST",
       "Basic " ++ btoa (env.DOMO_CLIENT_ID.getD "" ++ ":" ++ env.DOMO_CLIENT_SECRET.getD ""),
       some ("grant_type=client_credentials&scope=data%20dashboard"), none⟩ ∧
    (Part000.handleRequest oe penv up).2.head? = some
      ⟨"https://api.domo.com/oauth/token?grant_type=client_credentials&scope=data%20audit%20user%20dashboard",
       "GET",
       "Basic " ++ btoa ((oe.getD penv).DOMO_CLIENT_ID.getD "" ++ ":" ++
         (oe.getD penv).DOMO_CLIENT_SECRET.getD ""), none, none⟩ ∧
    (Part001.handleRequest pe re up).2.head? = some
      ⟨"https://api.domo.com/oauth/token", "POST",
       "Basic " ++ btoa ((mergeEnv pe re).DOMO_CLIENT_ID.getD "" ++ ":" ++
         (mergeEnv pe re).DOMO_CLIENT_SECRET.getD ""),
       some ("grant_type=client_credentials&scope=user%20account%20data"), none⟩ := by
  refine ⟨?_, ?_, ?_, ?_⟩
  · cases ht : statusOk up.token.status <;> cases he : statusOk up.embed.status <;>
      simp [Pages.handleRequest, h1, ht, he]
  · cases ht : statusOk up.token.status <;> cases ha : up.token.access_token.isEmpty <;>
      cases he : statusOk up.embed.status <;> cases hau : up.embed.authentication.isEmpty <;>
      simp [Functions.handler, Functions.getDomoAccessToken, Functions.generateEmbedToken,
        Functions.getDomoAccessTokenRequest, Functions.generateEmbedTokenRequest,
        hm, h2, ht, ha, he, hau]
  · cases ht : statusOk up.token.status <;> cases he : statusOk up.embed.status <;>
      simp [Part000.handleRequest, h3, ht, he]
  · cases ht : statusOk up.token.status <;> cases he : statusOk up.embed.status <;>
      simp [Part001.handleRequest, h1, ht, he]

/-- Witness for the amended C7 at concrete inputs. -/
theorem C7_amended_token_request_witness :
    missingEmbedConfig (mergeEnv envEmpty envA) = false ∧
    missingAppConfig envA = false ∧ ("GET" : String) ≠ "OPTIONS" ∧
    missingAppConfig ((some envA).getD envEmpty) = false ∧
    ((Pages.handleRequest envEmpty envA upOk).2.head? = some
      ⟨"https://api.domo.com/oauth/token?grant_type=client_credentials&scope=data%20audit%20user%20dashboard",
       "GET",
       "Basic " ++ btoa ((mergeEnv envEmpty envA).DOMO_CLIENT_ID.getD "" ++ ":" ++
         (mergeEnv envEmpty envA).DOMO_CLIENT_SECRET.getD ""), none, none⟩ ∧
    (Functions.handler "GET" envA upOk).2.head? = some
      ⟨envA.DOMO_BASE_URL.getD "" ++ "/oauth/token", "POST",
       "Basic " ++ btoa (envA.DOMO_CLIENT_ID.getD "" ++ ":" ++ envA.DOMO_CLIENT_SECRET.getD ""),
       some ("grant_type=client_credentials&scope=data%20dashboard"), none⟩ ∧
    (Part000.handleRequest (some envA) envEmpty upOk).2.head? = some
      ⟨"https://api.domo.com/oauth/token?grant_type=client_credentials&scope=data%20audit%20user%20dashboard",
       "GET",
       "Basic " ++ btoa (((some envA).getD envEmpty).DOMO_CLIENT_ID.getD "" ++ ":" ++
         ((some envA).getD envEmpty).DOMO_CLIENT_SECRET.getD ""), none, none⟩ ∧
    (Part001.handleRequest envEmpty envA upOk).2.head? = some
      ⟨"https://api.domo.com/oauth/token", "POST",
       "Basic " ++ btoa ((mergeEnv envEmpty envA).DOMO_CLIENT_ID.getD "" ++ ":" ++
         (mergeEnv envEmpty envA).DOMO_CLIENT_SECRET.getD ""),
       some ("grant_type=client_credentials&scope=user%20account%20data"), none⟩) :=
  ⟨by decide, by decide, by decide, by decide,
   C7_amended_token_request envEmpty envA envA envEmpty (some envA) upOk "GET"
     (by decide) (by decide) (by decide) (by decide)⟩

/-- Claim C6, counterexample: a concrete successful run of the
Functions variant returns 200 whose headers carry the CORS trio and
Content-Type text/html but none of the three cache-disabling headers
— in particular no Cache-Control at all. -/
theorem C6_counterexample :
    (Functions.handler "GET" envA upOk).1.status = 200 ∧
    (Functions.handler "GET" envA upOk).1.headers =
      corsHeaders ++ [("Content-Type", "text/html")] ∧
    (Functions.handler "GET" envA upOk).1.headers.lookup "Cache-Control" = none :=
  ⟨rfl, rfl, by decide⟩

/-- Claim C6 amended: every 200 pipeline response of the Pages,
Part000 and Part001 variants carries Content-Type text/html, the
three cache-disabling headers and the three permissive CORS headers
(the Pages variant additionally a Set-Cookie header); the Functions
variant's 200 responses carry only the CORS trio and Content-Type
text/html, with no cache-disabling headers. -/
theorem C6_amended_success_headers
    (pe re env penv : Env) (oe : Option Env) (up : Upstream) (method : String)
    (h1 : missingEmbedConfig (mergeEnv pe re) = false)
    (h2 : missingAppConfig env = false) (hm : method ≠ "OPTIONS")
    (h3 : missingAppConfig (oe.getD penv) = false)
    (ht : statusOk up.token.status = true) (he : statusOk up.embed.status = true)
    (ha : up.token.access_token.isEmpty = false)
    (hau : up.embed.authentication.isEmpty = false) :
    ((Pages.handleRequest pe re up).1.status = 200 ∧
      (Pages.handleRequest pe re up).1.headers =
        [("Content-Type", "text/html"),
         ("Cache-Control", "no-cache, no-store, must-revalidate"),
         ("Pragma", "no-cache"), ("Expires", "0"),
         ("Set-Cookie", Pages.setCookieHeader up.embed.authentication)] ++ corsHeaders) ∧
    ((Part000.handleRequest oe penv up).1.status = 200 ∧
      (Part000.handleRequest oe penv up).1.headers =
        [("Content-Type", "text/html"),
         ("Cache-Control", "no-cache, no-store, must-revalidate"),
         ("Pragma", "no-cache"), ("Expires", "0")] ++ corsHeaders) ∧
    ((Part001.handleRequest pe re up).1.status = 200 ∧
      (Part001.handleRequest pe re up).1.headers =
        [("Content-Type", "text/html"),
         ("Cache-Control", "no-cache, no-store, must-revalidate"),
         ("Pragma", "no-cache"), ("Expires", "0")] ++ corsHeaders) ∧
    ((Functions.handler method env up).1.status = 200 ∧
      (Functions.handler method env up).1.headers =
        corsHeaders ++ [("Content-Type", "text/html")] ∧
      (Functions.handler method env up).1.headers.lookup "Cache-Control" = none) := by
  have hf : Functions.handler method env up =
      (⟨200, some (Functions.generateEmbedHtml (env.DOMO_BASE_URL.getD "")
          (env.DOMO_APP_ID.getD "") up.embed.authentication), Functions.htmlHeaders⟩,
        [Functions.getDomoAccessTokenRequest (env.DOMO_BASE_URL.getD "")
          (env.DOMO_CLIENT_ID.getD "") (env.DOMO_CLIENT_SECRET.getD ""),
         Functions.generateEmbedTokenRequest (env.DOMO_BASE_URL.getD "")
          up.token.access_token (env.DOMO_APP_ID.getD "")]) := by
    simp [Functions.handler, Functions.getDomoAccessToken, Functions.generateEmbedToken,
      hm, h2, ht, ha, he, hau]
  refine ⟨⟨?_, ?_⟩, ⟨?_, ?_⟩, ⟨?_, ?_⟩, ?_, ?_, ?_⟩ <;>
    simp [Pages.handleRequest, Part000.handleRequest, Part001.handleRequest, hf,
      Functions.htmlHeaders, h1, h3, ht, he, List.lookup, corsHeaders]

/-- Witness for the amended C6 at concrete inputs. -/
theorem C6_amended_success_headers_witness :
    missingEmbedConfig (mergeEnv envEmpty envA) = false ∧
    missingAppConfig envA = false ∧ ("GET" : String) ≠ "OPTIONS" ∧
    missingAppConfig ((some envA).getD envEmpty) = false ∧
    statusOk upOk.token.status = true ∧ statusOk upOk.embed.status = true ∧
    upOk.token.access_token.isEmpty = false ∧
    upOk.embed.authentication.isEmpty = false ∧
    (((Pages.handleRequest envEmpty envA upOk).1.status = 200 ∧
      (Pages.handleRequest envEmpty envA upOk).1.headers =
        [("Content-Type", "text/html"),
         ("Cache-Control", "no-cache, no-store, must-revalidate"),
         ("Pragma", "no-cache"), ("Expires", "0"),
         ("Set-Cookie", Pages.setCookieHeader upOk.embed.authentication)] ++ corsHeaders) ∧
    ((Part000.handleRequest (some envA) envEmpty upOk).1.status = 200 ∧
      (Part000.handleRequest (some envA) envEmpty upOk).1.headers =
        [("Content-Type", "text/html"),
         ("Cache-Control", "no-cache, no-store, must-revalidate"),
         ("Pragma", "no-cache"), ("Expires", "0")] ++ corsHeaders) ∧
    ((Part001.handleRequest envEmpty envA upOk).1.status = 200 ∧
      (Part001.handleRequest envEmpty envA upOk).1.headers =
        [("Content-Type", "text/html"),
         ("Cache-Control", "no-cache, no-store, must-revalidate"),
         ("Pragma", "no-cache"), ("Expires", "0")] ++ corsHeaders) ∧
    ((Functions.handler "GET" envA upOk).1.status = 200 ∧
      (Functions.handler "GET" envA upOk).1.headers =
        corsHeaders ++ [("Content-Type", "text/html")] ∧
      (Functions.handler "GET" envA upOk).1.headers.lookup "Cache-Control" = none)) :=
  ⟨by decide, by decide, by decide, by decide, by decide, by decide, by decide, by decide,
   C6_amended_success_headers envEmpty envA envA envEmpty (some envA) upOk "GET"
     (by decide) (by decide) (by decide) (by decide) (by decide) (by decide)
     (by decide) (by decide)⟩


set_option maxRecDepth 4096 in
/-- Claim C3, counterexample: a concrete valid-configuration run of
the Part001 variant (configured embed kind defaults to card) with both
upstream calls answering 2xx returns status 200, but its body does not
contain the asset URL of the claimed form
baseUrl/embed/cards/assetId?embedToken=token — the body's iframe
points at the hardcoded embed.domo.com host instead of the configured
base URL. -/
theorem C3_counterexample :
    (Part001.handleRequest envEmpty envA upOk).1.status = 200 ∧
    ¬ strContains ((Part001.handleRequest envEmpty envA upOk).1.body.getD "")
        ("https://acme.domo.com/embed/cards/EMB01?embedToken=emb-token") :=
  ⟨rfl, by decide⟩

/-- Containment obtained from an explicit three-way split of the
string. -/
theorem strContains_of_eq (s pre pat suf : String) (h : s = pre ++ pat ++ suf) :
    strContains s pat := by
  rw [h]
  exact strContains_append pre pat suf

/-- Claim C3 amended: with a valid configuration and both upstream
calls answering 2xx, every variant returns status 200; the Part000
variant's body contains an asset URL of the claimed form
baseUrl/embed/pages/assetId?embedToken=token (kind = page), while the
Pages and Part001 variants' bodies instead contain a hardcoded
https://embed.domo.com/cards/assetId URL that ignores the configured
base URL (Pages passing the token first in an embedTokenValue
parameter, Part001 in embedToken), and the Functions variant's body
contains baseUrl/content/assetId?embedId=token. -/
theorem C3_amended_success_url
    (pe re env penv : Env) (oe : Option Env) (up : Upstream) (method : String)
    (h1 : missingEmbedConfig (mergeEnv pe re) = false)
    (h2 : missingAppConfig env = false) (hm : method ≠ "OPTIONS")
    (h3 : missingAppConfig (oe.getD penv) = false)
    (ht : statusOk up.token.status = true) (he : statusOk up.embed.status = true)
    (ha : up.token.access_token.isEmpty = false)
    (hau : up.embed.authentication.isEmpty = false) :
    ((Part000.handleRequest oe penv up).1.status = 200 ∧
      (Part000.handleRequest oe penv up).1.body =
        some (Part000HtmlPre ++
          ((oe.getD penv).DOMO_BASE_URL.getD "" ++ "/embed/pages/" ++
            (oe.getD penv).DOMO_APP_ID.getD "" ++ "?embedToken=" ++ up.embed.authentication) ++
          Part000HtmlSuf) ∧
      strContains (Part000HtmlPre ++
          ((oe.getD penv).DOMO_BASE_URL.getD "" ++ "/embed/pages/" ++
            (oe.getD penv).DOMO_APP_ID.getD "" ++ "?embedToken=" ++ up.embed.authentication) ++
          Part000HtmlSuf)
        ((oe.getD penv).DOMO_BASE_URL.getD "" ++ "/embed/pages/" ++
          (oe.getD penv).DOMO_APP_ID.getD "" ++ "?embedToken=" ++ up.embed.authentication)) ∧
    ((Pages.handleRequest pe re up).1.status = 200 ∧
      (Pages.handleRequest pe re up).1.body =
        some (Pages.iframeHtml
          (Pages.embedUrl ((mergeEnv pe re).DOMO_EMBED_ID.getD "") up.embed.authentication)
          up.embed.authentication) ∧
      strContains (Pages.iframeHtml
          (Pages.embedUrl ((mergeEnv pe re).DOMO_EMBED_ID.getD "") up.embed.authentication)
          up.embed.authentication)
        ("https://embed.domo.com/cards/" ++ (mergeEnv pe re).DOMO_EMBED_ID.getD "" ++
          "?embedTokenValue=" ++ up.embed.authentication)) ∧
    ((Part001.handleRequest pe re up).1.status = 200 ∧
      (Part001.handleRequest pe re up).1.body =
        some ("<iframe src=\"" ++
          ("https://embed.domo.com/cards/" ++ (mergeEnv pe re).DOMO_EMBED_ID.getD "" ++
            "?embedToken=" ++ up.embed.authentication) ++
          "\" width=\"600\" height=\"600\" marginheight=\"0\" marginwidth=\"0\" frameborder=\"0\" title=\"Domo AI Agentguide\"></iframe>") ∧
      strContains ("<iframe src=\"" ++
          ("https://embed.domo.com/cards/" ++ (mergeEnv pe re).DOMO_EMBED_ID.getD "" ++
            "?embedToken=" ++ up.embed.authentication) ++
          "\" width=\"600\" height=\"600\" marginheight=\"0\" marginwidth=\"0\" frameborder=\"0\" title=\"Domo AI Agentguide\"></iframe>")
        ("https://embed.domo.com/cards/" ++ (mergeEnv pe re).DOMO_EMBED_ID.getD "" ++
          "?embedToken=" ++ up.embed.authentication)) ∧
    ((Functions.handler method env up).1.status = 200 ∧
      (Functions.handler method env up).1.body =
        some (Functions.generateEmbedHtml (env.DOMO_BASE_URL.getD "")
          (env.DOMO_APP_ID.getD "") up.embed.authentication) ∧
      strContains (Functions.generateEmbedHtml (env.DOMO_BASE_URL.getD "")
          (env.DOMO_APP_ID.getD "") up.embed.authentication)
        (env.DOMO_BASE_URL.getD "" ++ "/content/" ++ env.DOMO_APP_ID.getD "" ++
          "?embedId=" ++ up.embed.authentication)) := by
  refine ⟨⟨?_, ?_, strContains_append _ _ _⟩,
          ⟨?_, ?_, strContains_of_eq _
            (PagesIframeHtmlPre ++ up.embed.authentication ++ PagesIframeHtmlMid) _
            ("&embedToken=" ++ up.embed.authentication ++ "&token=" ++
              up.embed.authentication ++ "&auth=" ++ up.embed.authentication ++
              "#embedTokenValue=" ++ up.embed.authentication ++ "&embedToken=" ++
              up.embed.authentication ++ "&token=" ++ up.embed.authentication ++
              PagesIframeHtmlSuf) ?_⟩,
          ⟨?_, ?_, strContains_append _ _ _⟩,
          ⟨?_, ?_, strContains_of_eq _ FunctionsEmbedHtmlPre _ FunctionsEmbedHtmlSuf ?_⟩⟩
  · simp [Part000.handleRequest, h3, ht, he]
  · simp [Part000.handleRequest, h3, ht, he]
  · simp [Pages.handleRequest, h1, ht, he]
  · simp [Pages.handleRequest, h1, ht, he]
  · simp [Pages.iframeHtml, Pages.embedUrl, String.append_assoc]
  · simp [Part001.handleRequest, h1, ht, he]
  · simp [Part001.handleRequest, h1, ht, he]
  · simp [Functions.handler, Functions.getDomoAccessToken, Functions.generateEmbedToken,
      hm, h2, ht, ha, he, hau]
  · simp [Functions.handler, Functions.getDomoAccessToken, Functions.generateEmbedToken,
      hm, h2, ht, ha, he, hau]
  · simp [Functions.generateEmbedHtml, String.append_assoc]

/-- Witness for the amended C3 at concrete inputs. -/
theorem C3_amended_success_url_witness :
    missingEmbedConfig (mergeEnv envEmpty envA) = false ∧
    missingAppConfig envA = false ∧ ("GET" : String) ≠ "OPTIONS" ∧
    missingAppConfig ((some envA).getD envEmpty) = false ∧
    statusOk upOk.token.status = true ∧ statusOk upOk.embed.status = true ∧
    upOk.token.access_token.isEmpty = false ∧
    upOk.embed.authentication.isEmpty = false ∧
    (((Part000.handleRequest (some envA) envEmpty upOk).1.status = 200 ∧
      (Part000.handleRequest (some envA) envEmpty upOk).1.body =
        some (Part000HtmlPre ++
          (((some envA).getD envEmpty).DOMO_BASE_URL.getD "" ++ "/embed/pages/" ++
            ((some envA).getD envEmpty).DOMO_APP_ID.getD "" ++ "?embedToken=" ++
            upOk.embed.authentication) ++
          Part000HtmlSuf) ∧
      strContains (Part000HtmlPre ++
          (((some envA).getD envEmpty).DOMO_BASE_URL.getD "" ++ "/embed/pages/" ++
            ((some envA).getD envEmpty).DOMO_APP_ID.getD "" ++ "?embedToken=" ++
            upOk.embed.authentication) ++
          Part000HtmlSuf)
        (((some envA).getD envEmpty).DOMO_BASE_URL.getD "" ++ "/embed/pages/" ++
          ((some envA).getD envEmpty).DOMO_APP_ID.getD "" ++ "?embedToken=" ++
          upOk.embed.authentication)) ∧
    ((Pages.handleRequest envEmpty envA upOk).1.status = 200 ∧
      (Pages.handleRequest envEmpty envA upOk).1.body =
        some (Pages.iframeHtml
          (Pages.embedUrl ((mergeEnv envEmpty envA).DOMO_EMBED_ID.getD "")
            upOk.embed.authentication)
          upOk.embed.authentication) ∧
      strContains (Pages.iframeHtml
          (Pages.embedUrl ((mergeEnv envEmpty envA).DOMO_EMBED_ID.getD "")
            upOk.embed.authentication)
          upOk.embed.authentication)
        ("https://embed.domo.com/cards/" ++ (mergeEnv envEmpty envA).DOMO_EMBED_ID.getD "" ++
          "?embedTokenValue=" ++ upOk.embed.authentication)) ∧
    ((Part001.handleRequest envEmpty envA upOk).1.status = 200 ∧
      (Part001.handleRequest envEmpty envA upOk).1.body =
        some ("<iframe src=\"" ++
          ("https://embed.domo.com/cards/" ++ (mergeEnv envEmpty envA).DOMO_EMBED_ID.getD "" ++
            "?embedToken=" ++ upOk.embed.authentication) ++
          "\" width=\"600\" height=\"600\" marginheight=\"0\" marginwidth=\"0\" frameborder=\"0\" title=\"Domo AI Agentguide\"></iframe>") ∧
      strContains ("<iframe src=\"" ++
          ("https://embed.domo.com/cards/" ++ (mergeEnv envEmpty envA).DOMO_EMBED_ID.getD "" ++
            "?embedToken=" ++ upOk.embed.authentication) ++
          "\" width=\"600\" height=\"600\" marginheight=\"0\" marginwidth=\"0\" frameborder=\"0\" title=\"Domo AI Agentguide\"></iframe>")
        ("https://embed.domo.com/cards/" ++ (mergeEnv envEmpty envA).DOMO_EMBED_ID.getD "" ++
          "?embedToken=" ++ upOk.embed.authentication)) ∧
    ((Functions.handler "GET" envA upOk).1.status = 200 ∧
      (Functions.handler "GET" envA upOk).1.body =
        some (Functions.generateEmbedHtml (envA.DOMO_BASE_URL.getD "")
          (envA.DOMO_APP_ID.getD "") upOk.embed.authentication) ∧
      strContains (Functions.generateEmbedHtml (envA.DOMO_BASE_URL.getD "")
          (envA.DOMO_APP_ID.getD "") upOk.embed.authentication)
        (envA.DOMO_BASE_URL.getD "" ++ "/content/" ++ envA.DOMO_APP_ID.getD "" ++
          "?embedId=" ++ upOk.embed.authentication))) :=
  ⟨by decide, by decide, by decide, by decide, by decide, by decide, by decide, by decide,
   C3_amended_success_url envEmpty envA envA envEmpty (some envA) upOk "GET"
     (by decide) (by decide) (by decide) (by decide) (by decide) (by decide)
     (by decide) (by decide)⟩

end DomoEmbed
